import Mathlib

/-!
Verification of the beenayasoft api-gateway dispatch core: a shallow
embedding of the route-resolution engine (`src/app/router.py`,
`src/config.py`), the authentication gate (`src/middleware.py`,
`src/app/auth.py`), the forwarding pipeline (`src/app/proxy.py`) and the
health aggregator (`src/app/router.py`, `src/app/endpoints.py`),
together with theorems settling the specification's claims.

Paths are modelled as `List Char`; Python dictionaries as association
lists with Python's insertion/update semantics (assignment keeps the
original key position and overwrites the value); Python string
operations (`startswith`, `rstrip`, `replace(old, new, 1)`, `split`,
`lower`) are re-implemented on character lists.
-/

namespace Gateway

/-- Request paths and path-valued configuration entries, as character lists. -/
abbrev Path := List Char

/-! ### Python dict semantics over association lists -/

/-- Python dict lookup `m[k]` / `m.get(k)`: the value stored at key `k`. -/
def findA {κ α : Type} [DecidableEq κ] : List (κ × α) → κ → Option α
  | [], _ => none
  | (k, v) :: rest, k₀ => if k = k₀ then some v else findA rest k₀

/-- Python dict assignment `m[k] = v`: overwrite in place (keeping the key's
original insertion position) or append a fresh key at the end. -/
def insertA {κ α : Type} [DecidableEq κ] : List (κ × α) → κ → α → List (κ × α)
  | [], k₀, v₀ => [(k₀, v₀)]
  | (k, v) :: rest, k₀, v₀ =>
    if k = k₀ then (k, v₀) :: rest else (k, v) :: insertA rest k₀ v₀

/-- Python `m.pop(k, None)`: drop the entry at key `k` if present. -/
def removeA {κ α : Type} [DecidableEq κ] : List (κ × α) → κ → List (κ × α)
  | [], _ => []
  | (k, v) :: rest, k₀ => if k = k₀ then rest else (k, v) :: removeA rest k₀

/-- A Python dict literal: successive assignments starting from `{}`
(duplicate keys keep the first position with the last value). -/
def dictOf {κ α : Type} [DecidableEq κ] (l : List (κ × α)) : List (κ × α) :=
  l.foldl (fun m e => insertA m e.1 e.2) []

/-- Python `m.get(k, dflt)`. -/
def getA {κ α : Type} [DecidableEq κ] (m : List (κ × α)) (k : κ) (dflt : α) : α :=
  (findA m k).getD dflt

/-! ### Configuration (`src/config.py`, with the in-file default URLs) -/

/-- One entry of the `SERVICES` table of `src/config.py`. -/
structure ServiceConfig where
  url : String
  health : Path
  routes : List Path
deriving DecidableEq

/-- The `SERVICES` table from `src/config.py` (environment-variable defaults). -/
def SERVICES : List (String × ServiceConfig) := [
  ("tenant", ⟨"http://localhost:8001", "/health/".toList, ["/api/tenants/".toList]⟩),
  ("auth", ⟨"http://localhost:8002", "/health/".toList, ["/api/auth/".toList]⟩),
  ("crm", ⟨"http://localhost:8003", "/health/".toList, ["/api/crm/".toList]⟩),
  ("documents", ⟨"http://localhost:8004", "/health/".toList, ["/api/quotes/".toList, "/api/invoices/".toList, "/api/projects/".toList, "/api/devis/".toList, "/api/factures/".toList, "/quotes/".toList, "/invoices/".toList]⟩),
  ("library", ⟨"http://localhost:8005", "/health/".toList, ["/api/library/".toList, "/api/categories/".toList, "/api/fournitures/".toList, "/api/main-oeuvre/".toList, "/api/ouvrages/".toList, "/api/ingredients/".toList]⟩)
]

/-- The `LEGACY_ROUTE_MAPPING` dict literal of `src/config.py`, in source
order, duplicate keys included (entry: legacy path, service name, target). -/
def legacyList : List (Path × String × Path) := [
  ("/api/auth/login/".toList, "auth", "/api/auth/login/".toList),
  ("/api/auth/register/".toList, "auth", "/api/auth/register/".toList),
  ("/api/auth/refresh/".toList, "auth", "/api/auth/refresh/".toList),
  ("/api/auth/me/".toList, "auth", "/api/auth/me/".toList),
  ("/auth/login/".toList, "auth", "/api/auth/login/".toList),
  ("/auth/register/".toList, "auth", "/api/auth/register/".toList),
  ("/auth/refresh/".toList, "auth", "/api/auth/refresh/".toList),
  ("/auth/me/".toList, "auth", "/api/auth/me/".toList),
  ("/api/tenants/{tenant_id}/".toList, "tenant", "/api/tenants/{tenant_id}/".toList),
  ("/api/tenants/".toList, "tenant", "/api/tenants/".toList),
  ("/api/tenants/{tenant_id}/validate/".toList, "tenant", "/api/tenants/{tenant_id}/validate/".toList),
  ("/api/tenants/{tenant_id}/stats/".toList, "tenant", "/api/tenants/{tenant_id}/stats/".toList),
  ("/api/auth/tenants/{tenant_id}/".toList, "tenant", "/api/tenants/{tenant_id}/".toList),
  ("/api/auth/tenants/".toList, "tenant", "/api/tenants/".toList),
  ("/api/auth/tenants/{tenant_id}/validate/".toList, "tenant", "/api/tenants/{tenant_id}/validate/".toList),
  ("/api/auth/tenants/{tenant_id}/stats/".toList, "tenant", "/api/tenants/{tenant_id}/stats/".toList),
  ("/api/tiers/frontend_format/".toList, "crm", "/api/tiers/frontend_format/".toList),
  ("/api/tiers/stats/".toList, "crm", "/api/tiers/stats/".toList),
  ("/api/tiers/{id}/".toList, "crm", "/api/tiers/{id}/".toList),
  ("/api/tiers/{id}/vue_360/".toList, "crm", "/api/tiers/{id}/vue_360/".toList),
  ("/api/tiers/{id}/restaurer/".toList, "crm", "/api/tiers/{id}/restore/".toList),
  ("/api/tiers/".toList, "crm", "/api/tiers/".toList),
  ("/api/clients/".toList, "crm", "/api/tiers/".toList),
  ("/api/prospects/".toList, "crm", "/api/tiers/".toList),
  ("/api/fournisseurs/".toList, "crm", "/api/tiers/".toList),
  ("/api/opportunities/".toList, "crm", "/api/opportunities/".toList),
  ("/api/opportunities/{id}/".toList, "crm", "/api/opportunities/{id}/".toList),
  ("/api/opportunities/stats/".toList, "crm", "/api/opportunities/stats/".toList),
  ("/api/opportunities/kanban/".toList, "crm", "/api/opportunities/kanban/".toList),
  ("/api/opportunities/{id}/update_stage/".toList, "crm", "/api/opportunities/{id}/update_stage/".toList),
  ("/api/opportunities/{id}/mark_won/".toList, "crm", "/api/opportunities/{id}/mark_won/".toList),
  ("/api/opportunities/{id}/mark_lost/".toList, "crm", "/api/opportunities/{id}/mark_lost/".toList),
  ("/tiers/frontend_format/".toList, "crm", "/api/crm/tiers/frontend_format/".toList),
  ("/tiers/stats/".toList, "crm", "/api/crm/tiers/stats/".toList),
  ("/tiers/{id}/".toList, "crm", "/api/crm/tiers/{id}/".toList),
  ("/tiers/{id}/vue_360/".toList, "crm", "/api/crm/tiers/{id}/vue_360/".toList),
  ("/tiers/{id}/restaurer/".toList, "crm", "/api/crm/tiers/{id}/restore/".toList),
  ("/tiers/".toList, "crm", "/api/crm/tiers/".toList),
  ("/clients/".toList, "crm", "/api/crm/tiers/".toList),
  ("/prospects/".toList, "crm", "/api/crm/tiers/".toList),
  ("/fournisseurs/".toList, "crm", "/api/crm/tiers/".toList),
  ("/opportunities/".toList, "crm", "/api/crm/opportunities/".toList),
  ("/opportunities/{id}/".toList, "crm", "/api/crm/opportunities/{id}/".toList),
  ("/opportunities/stats/".toList, "crm", "/api/crm/opportunities/stats/".toList),
  ("/opportunities/kanban/".toList, "crm", "/api/crm/opportunities/kanban/".toList),
  ("/opportunities/{id}/update_stage/".toList, "crm", "/api/crm/opportunities/{id}/update_stage/".toList),
  ("/opportunities/{id}/mark_won/".toList, "crm", "/api/crm/opportunities/{id}/mark_won/".toList),
  ("/opportunities/{id}/mark_lost/".toList, "crm", "/api/crm/opportunities/{id}/mark_lost/".toList),
  ("/api/devis/".toList, "documents", "/api/quotes/".toList),
  ("/api/devis/stats/".toList, "documents", "/api/quotes/stats/".toList),
  ("/api/devis/{id}/".toList, "documents", "/api/quotes/{id}/".toList),
  ("/api/devis/{id}/send/".toList, "documents", "/api/quotes/{id}/send/".toList),
  ("/api/devis/{id}/validate/".toList, "documents", "/api/quotes/{id}/validate/".toList),
  ("/api/devis/{id}/convert_to_invoice/".toList, "documents", "/api/quotes/{id}/convert_to_invoice/".toList),
  ("/api/devis/{id}/duplicate/".toList, "documents", "/api/quotes/{id}/duplicate/".toList),
  ("/api/devis/{id}/pdf/".toList, "documents", "/api/quotes/{id}/pdf/".toList),
  ("/api/devis/{id}/export/".toList, "documents", "/api/quotes/{id}/export/".toList),
  ("/api/devis/{id}/items/".toList, "documents", "/api/quotes/{id}/items/".toList),
  ("/api/factures/".toList, "documents", "/api/invoices/".toList),
  ("/api/factures/stats/".toList, "documents", "/api/invoices/stats/".toList),
  ("/api/factures/{id}/".toList, "documents", "/api/invoices/{id}/".toList),
  ("/api/factures/{id}/validate/".toList, "documents", "/api/invoices/{id}/validate/".toList),
  ("/api/factures/{id}/record_payment/".toList, "documents", "/api/invoices/{id}/record_payment/".toList),
  ("/api/factures/{id}/create_credit_note/".toList, "documents", "/api/invoices/{id}/create_credit_note/".toList),
  ("/api/factures/{id}/pdf/".toList, "documents", "/api/invoices/{id}/pdf/".toList),
  ("/api/factures/{id}/export/".toList, "documents", "/api/invoices/{id}/export/".toList),
  ("/api/factures/{id}/items/".toList, "documents", "/api/invoices/{id}/items/".toList),
  ("/api/factures/{id}/payments/".toList, "documents", "/api/invoices/{id}/payments/".toList),
  ("/api/quotes/".toList, "documents", "/api/quotes/".toList),
  ("/api/quotes/next-number/".toList, "documents", "/api/quotes/next_number/".toList),
  ("/api/projects/next-reference/".toList, "documents", "/api/projects/next-reference/".toList),
  ("/api/quote-items/".toList, "documents", "/api/quote-items/".toList),
  ("/api/invoices/".toList, "documents", "/api/invoices/".toList),
  ("/api/invoice-items/".toList, "documents", "/api/invoice-items/".toList),
  ("/quotes/".toList, "documents", "/api/quotes/".toList),
  ("/quotes/stats/".toList, "documents", "/api/quotes/stats/".toList),
  ("/quotes/{id}/".toList, "documents", "/api/quotes/{id}/".toList),
  ("/quotes/{id}/send/".toList, "documents", "/api/quotes/{id}/send/".toList),
  ("/quotes/{id}/validate/".toList, "documents", "/api/quotes/{id}/validate/".toList),
  ("/quotes/{id}/duplicate/".toList, "documents", "/api/quotes/{id}/duplicate/".toList),
  ("/quotes/{id}/export/".toList, "documents", "/api/quotes/{id}/export/".toList),
  ("/quotes/{id}/items/".toList, "documents", "/api/quotes/{id}/items/".toList),
  ("/quote-items/".toList, "documents", "/api/quote-items/".toList),
  ("/invoices/".toList, "documents", "/api/invoices/".toList),
  ("/invoices/stats/".toList, "documents", "/api/invoices/stats/".toList),
  ("/invoices/{id}/".toList, "documents", "/api/invoices/{id}/".toList),
  ("/invoices/{id}/validate/".toList, "documents", "/api/invoices/{id}/validate/".toList),
  ("/invoices/{id}/record_payment/".toList, "documents", "/api/invoices/{id}/record_payment/".toList),
  ("/invoices/{id}/create_credit_note/".toList, "documents", "/api/invoices/{id}/create_credit_note/".toList),
  ("/invoices/{id}/export/".toList, "documents", "/api/invoices/{id}/export/".toList),
  ("/invoices/{id}/items/".toList, "documents", "/api/invoices/{id}/items/".toList),
  ("/invoices/{id}/payments/".toList, "documents", "/api/invoices/{id}/payments/".toList),
  ("/vat-rates/".toList, "documents", "/api/quotes/vat-rates/".toList),
  ("/api/quotes/vat-rates/".toList, "documents", "/api/quotes/vat-rates/".toList),
  ("/api/quotes/payment-terms/".toList, "documents", "/api/payment-terms/".toList),
  ("/payment-terms/".toList, "documents", "/api/payment-terms/".toList),
  ("/tenants/{tenant_id}/".toList, "tenant", "/api/tenants/{tenant_id}/".toList),
  ("/tenants/{tenant_id}/validate/".toList, "tenant", "/api/tenants/{tenant_id}/validate/".toList),
  ("/tenants/{tenant_id}/stats/".toList, "tenant", "/api/tenants/{tenant_id}/stats/".toList),
  ("/tenants/current_tenant_info/".toList, "tenant", "/api/tenants/current_tenant_info/".toList),
  ("/api/tenant/vat_rates/".toList, "tenant", "/api/vat_rates/".toList),
  ("/api/tenants/vat_rates/".toList, "tenant", "/api/vat_rates/".toList),
  ("/tenants/vat_rates/".toList, "tenant", "/api/vat_rates/".toList),
  ("/api/tenants/payment_terms/".toList, "tenant", "/api/payment_terms/".toList),
  ("/tenants/payment_terms/".toList, "tenant", "/api/payment_terms/".toList),
  ("/auth/tenants/{tenant_id}/".toList, "tenant", "/api/tenants/current_tenant_info/".toList),
  ("/auth/tenants/".toList, "tenant", "/api/tenants/".toList),
  ("/api/document_appearance/".toList, "tenant", "/api/document_appearance/".toList),
  ("/api/document_appearance/defaults/".toList, "tenant", "/api/document_appearance/defaults/".toList),
  ("/api/document_appearance/templates/".toList, "tenant", "/api/document_appearance/templates/".toList),
  ("/api/document_appearance/presets/".toList, "tenant", "/api/document_appearance/presets/".toList),
  ("/api/document_appearance/colors/".toList, "tenant", "/api/document_appearance/colors/".toList),
  ("/document_appearance/".toList, "tenant", "/api/document_appearance/".toList),
  ("/document_appearance/defaults/".toList, "tenant", "/api/document_appearance/defaults/".toList),
  ("/document_appearance/templates/".toList, "tenant", "/api/document_appearance/templates/".toList),
  ("/document_appearance/presets/".toList, "tenant", "/api/document_appearance/presets/".toList),
  ("/document_appearance/colors/".toList, "tenant", "/api/document_appearance/colors/".toList),
  ("/api/library/categories/".toList, "library", "/api/categories/".toList),
  ("/api/library/fournitures/".toList, "library", "/api/fournitures/".toList),
  ("/api/library/main-oeuvre/".toList, "library", "/api/main-oeuvre/".toList),
  ("/api/library/ouvrages/".toList, "library", "/api/ouvrages/".toList),
  ("/api/library/ingredients/".toList, "library", "/api/ingredients/".toList),
  ("/api/library/search/".toList, "library", "/api/search/".toList),
  ("/api/library/composite/".toList, "library", "/api/composite/".toList),
  ("/api/library/composite/all_items/".toList, "library", "/api/composite/all_items/".toList),
  ("/api/categories/".toList, "library", "/api/categories/".toList),
  ("/api/fournitures/".toList, "library", "/api/fournitures/".toList),
  ("/api/main-oeuvre/".toList, "library", "/api/main-oeuvre/".toList),
  ("/api/ouvrages/".toList, "library", "/api/ouvrages/".toList),
  ("/api/ingredients/".toList, "library", "/api/ingredients/".toList),
  ("/categories/".toList, "library", "/api/categories/".toList),
  ("/fournitures/".toList, "library", "/api/fournitures/".toList),
  ("/main-oeuvre/".toList, "library", "/api/main-oeuvre/".toList),
  ("/ouvrages/".toList, "library", "/api/ouvrages/".toList),
  ("/ingredients/".toList, "library", "/api/ingredients/".toList),
  ("/library/search/".toList, "library", "/api/search/".toList),
  ("/library/composite/".toList, "library", "/api/composite/".toList),
  ("/library/composite/all_items/".toList, "library", "/api/composite/all_items/".toList),
  ("/api/library/categories/".toList, "library", "/api/categories/".toList),
  ("/api/library/fournitures/".toList, "library", "/api/fournitures/".toList),
  ("/api/library/main-oeuvre/".toList, "library", "/api/main-oeuvre/".toList),
  ("/api/library/ouvrages/".toList, "library", "/api/ouvrages/".toList),
  ("/api/library/ingredients/".toList, "library", "/api/ingredients/".toList),
  ("/api/categories/".toList, "library", "/api/categories/".toList),
  ("/api/fournitures/".toList, "library", "/api/fournitures/".toList),
  ("/api/main-oeuvre/".toList, "library", "/api/main-oeuvre/".toList),
  ("/api/ouvrages/".toList, "library", "/api/ouvrages/".toList),
  ("/api/ingredients/".toList, "library", "/api/ingredients/".toList),
  ("/api/categories/racines/".toList, "library", "/api/categories/racines/".toList),
  ("/api/categories/stats/".toList, "library", "/api/categories/stats/".toList),
  ("/api/fournitures/stats/".toList, "library", "/api/fournitures/stats/".toList),
  ("/api/fournitures/par_categorie/".toList, "library", "/api/fournitures/par_categorie/".toList),
  ("/api/main-oeuvre/stats/".toList, "library", "/api/main-oeuvre/stats/".toList),
  ("/api/main-oeuvre/par_categorie/".toList, "library", "/api/main-oeuvre/par_categorie/".toList),
  ("/api/ouvrages/stats/".toList, "library", "/api/ouvrages/stats/".toList),
  ("/api/ouvrages/par_categorie/".toList, "library", "/api/ouvrages/par_categorie/".toList),
  ("/api/ingredients/stats/".toList, "library", "/api/ingredients/stats/".toList),
  ("/api/ingredients/par_ouvrage/".toList, "library", "/api/ingredients/par_ouvrage/".toList)
]

/-- The `PUBLIC_ROUTES` list from `src/config.py`. -/
def PUBLIC_ROUTES : List Path := [
  "/health/".toList,
  "/docs".toList,
  "/redoc".toList,
  "/openapi.json".toList,
  "/api/auth/login/".toList,
  "/api/auth/register/".toList,
  "/auth/login/".toList,
  "/auth/register/".toList,
  "/api/tenants/".toList,
  "/tenants/".toList,
  "/vat-rates/".toList,
  "/api/quotes/vat-rates/".toList,
  "/api/library/health/".toList
]

/-! ### Route table construction (`ServiceRouter._compile_route_cache`) -/

/-- Python `s.rstrip('/')`: drop every trailing slash. -/
def rstripSlash (p : Path) : Path :=
  (p.reverse.dropWhile (fun c => c = '/')).reverse

/-- Python `s.replace(old, new, 1)`: replace the first (leftmost) occurrence
of `old` in the subject by `new`, leaving the rest verbatim. -/
def replaceOnce (old new : Path) : Path → Path
  | [] => if old.isPrefixOf [] then new ++ ([] : Path).drop old.length else []
  | c :: rest =>
    if old.isPrefixOf (c :: rest) then new ++ (c :: rest).drop old.length
    else c :: replaceOnce old new rest

/-- The `LEGACY_ROUTE_MAPPING` dict (the literal's duplicate keys resolved
with Python dict-literal semantics). -/
def legacyDict : List (Path × String × Path) := dictOf legacyList

/-- The body of loop 1 of `_compile_route_cache`: cache the exact legacy
route when its service exists. -/
def routeCacheStep (m : List (Path × String × Path)) (e : Path × String × Path) :
    List (Path × String × Path) :=
  match findA SERVICES e.2.1 with
  | some cfg => insertA m e.1 (cfg.url, e.2.2)
  | none => m

/-- Step 1 of `_compile_route_cache`: the exact-match cache
`self._route_cache`, one entry per legacy route whose service exists. -/
def buildRouteCache : List (Path × String × Path) :=
  legacyDict.foldl routeCacheStep []

/-- The body of loop 2 of `_compile_route_cache`: register the
slash-stripped legacy route with its slash-stripped rewrite target when
its service exists. -/
def pfxLegacyStep (m : List (Path × String × Path × Path)) (e : Path × String × Path) :
    List (Path × String × Path × Path) :=
  match findA SERVICES e.2.1 with
  | some cfg =>
    insertA m (rstripSlash e.1) (cfg.url, rstripSlash e.1, rstripSlash e.2.2)
  | none => m

/-- The body of loop 3 of `_compile_route_cache`: register each of a
service's own route entries with the identity transform. -/
def pfxServiceStep (m : List (Path × String × Path × Path)) (e : String × ServiceConfig) :
    List (Path × String × Path × Path) :=
  e.2.routes.foldl (fun m' r => insertA m' r (e.2.url, r, r)) m

/-- Steps 2 and 3 of `_compile_route_cache`: the prefix map
`self._prefix_map`, keyed by slash-stripped legacy routes (with their
slash-stripped rewrite targets) and then by each service's own route
entries (identity transform). -/
def buildPfxMap : List (Path × String × Path × Path) :=
  SERVICES.foldl pfxServiceStep (legacyDict.foldl pfxLegacyStep [])

/-- The comparator of step 4 of `_compile_route_cache`:
`sorted(keys, key=len, reverse=True)` sorts by length, longest first. -/
def lenDesc (a b : Path) : Bool := Nat.ble b.length a.length

/-- Step 4 of `_compile_route_cache`: `self._sorted_prefixes`. -/
def buildSortedPfx : List Path := (buildPfxMap.map Prod.fst).mergeSort lenDesc

/-- The mutable state of `ServiceRouter`: the exact cache (also the
memoization layer), the prefix map, and the sorted prefix keys. -/
structure RouterState where
  routeCache : List (Path × String × Path)
  pfxMap : List (Path × String × Path × Path)
  sortedPfx : List Path
deriving DecidableEq

/-- The router state right after `ServiceRouter.__init__`. -/
def routerState₀ : RouterState := ⟨buildRouteCache, buildPfxMap, buildSortedPfx⟩

/-- The `LEGACY_ROUTE_MAPPING` dict, spelled out as a literal table;
`legacyDict_eq` proves it equal to the dict built from the literal's
entries, and the staged table-construction proofs fold over it. -/
def legacyDictLit : List (Path × String × Path) := [
  ("/api/auth/login/".toList, "auth", "/api/auth/login/".toList),
  ("/api/auth/register/".toList, "auth", "/api/auth/register/".toList),
  ("/api/auth/refresh/".toList, "auth", "/api/auth/refresh/".toList),
  ("/api/auth/me/".toList, "auth", "/api/auth/me/".toList),
  ("/auth/login/".toList, "auth", "/api/auth/login/".toList),
  ("/auth/register/".toList, "auth", "/api/auth/register/".toList),
  ("/auth/refresh/".toList, "auth", "/api/auth/refresh/".toList),
  ("/auth/me/".toList, "auth", "/api/auth/me/".toList),
  ("/api/tenants/{tenant_id}/".toList, "tenant", "/api/tenants/{tenant_id}/".toList),
  ("/api/tenants/".toList, "tenant", "/api/tenants/".toList),
  ("/api/tenants/{tenant_id}/validate/".toList, "tenant", "/api/tenants/{tenant_id}/validate/".toList),
  ("/api/tenants/{tenant_id}/stats/".toList, "tenant", "/api/tenants/{tenant_id}/stats/".toList),
  ("/api/auth/tenants/{tenant_id}/".toList, "tenant", "/api/tenants/{tenant_id}/".toList),
  ("/api/auth/tenants/".toList, "tenant", "/api/tenants/".toList),
  ("/api/auth/tenants/{tenant_id}/validate/".toList, "tenant", "/api/tenants/{tenant_id}/validate/".toList),
  ("/api/auth/tenants/{tenant_id}/stats/".toList, "tenant", "/api/tenants/{tenant_id}/stats/".toList),
  ("/api/tiers/frontend_format/".toList, "crm", "/api/tiers/frontend_format/".toList),
  ("/api/tiers/stats/".toList, "crm", "/api/tiers/stats/".toList),
  ("/api/tiers/{id}/".toList, "crm", "/api/tiers/{id}/".toList),
  ("/api/tiers/{id}/vue_360/".toList, "crm", "/api/tiers/{id}/vue_360/".toList),
  ("/api/tiers/{id}/restaurer/".toList, "crm", "/api/tiers/{id}/restore/".toList),
  ("/api/tiers/".toList, "crm", "/api/tiers/".toList),
  ("/api/clients/".toList, "crm", "/api/tiers/".toList),
  ("/api/prospects/".toList, "crm", "/api/tiers/".toList),
  ("/api/fournisseurs/".toList, "crm", "/api/tiers/".toList),
  ("/api/opportunities/".toList, "crm", "/api/opportunities/".toList),
  ("/api/opportunities/{id}/".toList, "crm", "/api/opportunities/{id}/".toList),
  ("/api/opportunities/stats/".toList, "crm", "/api/opportunities/stats/".toList),
  ("/api/opportunities/kanban/".toList, "crm", "/api/opportunities/kanban/".toList),
  ("/api/opportunities/{id}/update_stage/".toList, "crm", "/api/opportunities/{id}/update_stage/".toList),
  ("/api/opportunities/{id}/mark_won/".toList, "crm", "/api/opportunities/{id}/mark_won/".toList),
  ("/api/opportunities/{id}/mark_lost/".toList, "crm", "/api/opportunities/{id}/mark_lost/".toList),
  ("/tiers/frontend_format/".toList, "crm", "/api/crm/tiers/frontend_format/".toList),
  ("/tiers/stats/".toList, "crm", "/api/crm/tiers/stats/".toList),
  ("/tiers/{id}/".toList, "crm", "/api/crm/tiers/{id}/".toList),
  ("/tiers/{id}/vue_360/".toList, "crm", "/api/crm/tiers/{id}/vue_360/".toList),
  ("/tiers/{id}/restaurer/".toList, "crm", "/api/crm/tiers/{id}/restore/".toList),
  ("/tiers/".toList, "crm", "/api/crm/tiers/".toList),
  ("/clients/".toList, "crm", "/api/crm/tiers/".toList),
  ("/prospects/".toList, "crm", "/api/crm/tiers/".toList),
  ("/fournisseurs/".toList, "crm", "/api/crm/tiers/".toList),
  ("/opportunities/".toList, "crm", "/api/crm/opportunities/".toList),
  ("/opportunities/{id}/".toList, "crm", "/api/crm/opportunities/{id}/".toList),
  ("/opportunities/stats/".toList, "crm", "/api/crm/opportunities/stats/".toList),
  ("/opportunities/kanban/".toList, "crm", "/api/crm/opportunities/kanban/".toList),
  ("/opportunities/{id}/update_stage/".toList, "crm", "/api/crm/opportunities/{id}/update_stage/".toList),
  ("/opportunities/{id}/mark_won/".toList, "crm", "/api/crm/opportunities/{id}/mark_won/".toList),
  ("/opportunities/{id}/mark_lost/".toList, "crm", "/api/crm/opportunities/{id}/mark_lost/".toList),
  ("/api/devis/".toList, "documents", "/api/quotes/".toList),
  ("/api/devis/stats/".toList, "documents", "/api/quotes/stats/".toList),
  ("/api/devis/{id}/".toList, "documents", "/api/quotes/{id}/".toList),
  ("/api/devis/{id}/send/".toList, "documents", "/api/quotes/{id}/send/".toList),
  ("/api/devis/{id}/validate/".toList, "documents", "/api/quotes/{id}/validate/".toList),
  ("/api/devis/{id}/convert_to_invoice/".toList, "documents", "/api/quotes/{id}/convert_to_invoice/".toList),
  ("/api/devis/{id}/duplicate/".toList, "documents", "/api/quotes/{id}/duplicate/".toList),
  ("/api/devis/{id}/pdf/".toList, "documents", "/api/quotes/{id}/pdf/".toList),
  ("/api/devis/{id}/export/".toList, "documents", "/api/quotes/{id}/export/".toList),
  ("/api/devis/{id}/items/".toList, "documents", "/api/quotes/{id}/items/".toList),
  ("/api/factures/".toList, "documents", "/api/invoices/".toList),
  ("/api/factures/stats/".toList, "documents", "/api/invoices/stats/".toList),
  ("/api/factures/{id}/".toList, "documents", "/api/invoices/{id}/".toList),
  ("/api/factures/{id}/validate/".toList, "documents", "/api/invoices/{id}/validate/".toList),
  ("/api/factures/{id}/record_payment/".toList, "documents", "/api/invoices/{id}/record_payment/".toList),
  ("/api/factures/{id}/create_credit_note/".toList, "documents", "/api/invoices/{id}/create_credit_note/".toList),
  ("/api/factures/{id}/pdf/".toList, "documents", "/api/invoices/{id}/pdf/".toList),
  ("/api/factures/{id}/export/".toList, "documents", "/api/invoices/{id}/export/".toList),
  ("/api/factures/{id}/items/".toList, "documents", "/api/invoices/{id}/items/".toList),
  ("/api/factures/{id}/payments/".toList, "documents", "/api/invoices/{id}/payments/".toList),
  ("/api/quotes/".toList, "documents", "/api/quotes/".toList),
  ("/api/quotes/next-number/".toList, "documents", "/api/quotes/next_number/".toList),
  ("/api/projects/next-reference/".toList, "documents", "/api/projects/next-reference/".toList),
  ("/api/quote-items/".toList, "documents", "/api/quote-items/".toList),
  ("/api/invoices/".toList, "documents", "/api/invoices/".toList),
  ("/api/invoice-items/".toList, "documents", "/api/invoice-items/".toList),
  ("/quotes/".toList, "documents", "/api/quotes/".toList),
  ("/quotes/stats/".toList, "documents", "/api/quotes/stats/".toList),
  ("/quotes/{id}/".toList, "documents", "/api/quotes/{id}/".toList),
  ("/quotes/{id}/send/".toList, "documents", "/api/quotes/{id}/send/".toList),
  ("/quotes/{id}/validate/".toList, "documents", "/api/quotes/{id}/validate/".toList),
  ("/quotes/{id}/duplicate/".toList, "documents", "/api/quotes/{id}/duplicate/".toList),
  ("/quotes/{id}/export/".toList, "documents", "/api/quotes/{id}/export/".toList),
  ("/quotes/{id}/items/".toList, "documents", "/api/quotes/{id}/items/".toList),
  ("/quote-items/".toList, "documents", "/api/quote-items/".toList),
  ("/invoices/".toList, "documents", "/api/invoices/".toList),
  ("/invoices/stats/".toList, "documents", "/api/invoices/stats/".toList),
  ("/invoices/{id}/".toList, "documents", "/api/invoices/{id}/".toList),
  ("/invoices/{id}/validate/".toList, "documents", "/api/invoices/{id}/validate/".toList),
  ("/invoices/{id}/record_payment/".toList, "documents", "/api/invoices/{id}/record_payment/".toList),
  ("/invoices/{id}/create_credit_note/".toList, "documents", "/api/invoices/{id}/create_credit_note/".toList),
  ("/invoices/{id}/export/".toList, "documents", "/api/invoices/{id}/export/".toList),
  ("/invoices/{id}/items/".toList, "documents", "/api/invoices/{id}/items/".toList),
  ("/invoices/{id}/payments/".toList, "documents", "/api/invoices/{id}/payments/".toList),
  ("/vat-rates/".toList, "documents", "/api/quotes/vat-rates/".toList),
  ("/api/quotes/vat-rates/".toList, "documents", "/api/quotes/vat-rates/".toList),
  ("/api/quotes/payment-terms/".toList, "documents", "/api/payment-terms/".toList),
  ("/payment-terms/".toList, "documents", "/api/payment-terms/".toList),
  ("/tenants/{tenant_id}/".toList, "tenant", "/api/tenants/{tenant_id}/".toList),
  ("/tenants/{tenant_id}/validate/".toList, "tenant", "/api/tenants/{tenant_id}/validate/".toList),
  ("/tenants/{tenant_id}/stats/".toList, "tenant", "/api/tenants/{tenant_id}/stats/".toList),
  ("/tenants/current_tenant_info/".toList, "tenant", "/api/tenants/current_tenant_info/".toList),
  ("/api/tenant/vat_rates/".toList, "tenant", "/api/vat_rates/".toList),
  ("/api/tenants/vat_rates/".toList, "tenant", "/api/vat_rates/".toList),
  ("/tenants/vat_rates/".toList, "tenant", "/api/vat_rates/".toList),
  ("/api/tenants/payment_terms/".toList, "tenant", "/api/payment_terms/".toList),
  ("/tenants/payment_terms/".toList, "tenant", "/api/payment_terms/".toList),
  ("/auth/tenants/{tenant_id}/".toList, "tenant", "/api/tenants/current_tenant_info/".toList),
  ("/auth/tenants/".toList, "tenant", "/api/tenants/".toList),
  ("/api/document_appearance/".toList, "tenant", "/api/document_appearance/".toList),
  ("/api/document_appearance/defaults/".toList, "tenant", "/api/document_appearance/defaults/".toList),
  ("/api/document_appearance/templates/".toList, "tenant", "/api/document_appearance/templates/".toList),
  ("/api/document_appearance/presets/".toList, "tenant", "/api/document_appearance/presets/".toList),
  ("/api/document_appearance/colors/".toList, "tenant", "/api/document_appearance/colors/".toList),
  ("/document_appearance/".toList, "tenant", "/api/document_appearance/".toList),
  ("/document_appearance/defaults/".toList, "tenant", "/api/document_appearance/defaults/".toList),
  ("/document_appearance/templates/".toList, "tenant", "/api/document_appearance/templates/".toList),
  ("/document_appearance/presets/".toList, "tenant", "/api/document_appearance/presets/".toList),
  ("/document_appearance/colors/".toList, "tenant", "/api/document_appearance/colors/".toList),
  ("/api/library/categories/".toList, "library", "/api/categories/".toList),
  ("/api/library/fournitures/".toList, "library", "/api/fournitures/".toList),
  ("/api/library/main-oeuvre/".toList, "library", "/api/main-oeuvre/".toList),
  ("/api/library/ouvrages/".toList, "library", "/api/ouvrages/".toList),
  ("/api/library/ingredients/".toList, "library", "/api/ingredients/".toList),
  ("/api/library/search/".toList, "library", "/api/search/".toList),
  ("/api/library/composite/".toList, "library", "/api/composite/".toList),
  ("/api/library/composite/all_items/".toList, "library", "/api/composite/all_items/".toList),
  ("/api/categories/".toList, "library", "/api/categories/".toList),
  ("/api/fournitures/".toList, "library", "/api/fournitures/".toList),
  ("/api/main-oeuvre/".toList, "library", "/api/main-oeuvre/".toList),
  ("/api/ouvrages/".toList, "library", "/api/ouvrages/".toList),
  ("/api/ingredients/".toList, "library", "/api/ingredients/".toList),
  ("/categories/".toList, "library", "/api/categories/".toList),
  ("/fournitures/".toList, "library", "/api/fournitures/".toList),
  ("/main-oeuvre/".toList, "library", "/api/main-oeuvre/".toList),
  ("/ouvrages/".toList, "library", "/api/ouvrages/".toList),
  ("/ingredients/".toList, "library", "/api/ingredients/".toList),
  ("/library/search/".toList, "library", "/api/search/".toList),
  ("/library/composite/".toList, "library", "/api/composite/".toList),
  ("/library/composite/all_items/".toList, "library", "/api/composite/all_items/".toList),
  ("/api/categories/racines/".toList, "library", "/api/categories/racines/".toList),
  ("/api/categories/stats/".toList, "library", "/api/categories/stats/".toList),
  ("/api/fournitures/stats/".toList, "library", "/api/fournitures/stats/".toList),
  ("/api/fournitures/par_categorie/".toList, "library", "/api/fournitures/par_categorie/".toList),
  ("/api/main-oeuvre/stats/".toList, "library", "/api/main-oeuvre/stats/".toList),
  ("/api/main-oeuvre/par_categorie/".toList, "library", "/api/main-oeuvre/par_categorie/".toList),
  ("/api/ouvrages/stats/".toList, "library", "/api/ouvrages/stats/".toList),
  ("/api/ouvrages/par_categorie/".toList, "library", "/api/ouvrages/par_categorie/".toList),
  ("/api/ingredients/stats/".toList, "library", "/api/ingredients/stats/".toList),
  ("/api/ingredients/par_ouvrage/".toList, "library", "/api/ingredients/par_ouvrage/".toList)
]

/-- The legacy-route half of the prefix map (the state of
`self._prefix_map` after loop 2), spelled out as a literal table;
`pfxM1_eq` proves it equal to the fold over the legacy dict. -/
def pfxM1Lit : List (Path × String × Path × Path) := [
  ("/api/auth/login".toList, "http://localhost:8002", "/api/auth/login".toList, "/api/auth/login".toList),
  ("/api/auth/register".toList, "http://localhost:8002", "/api/auth/register".toList, "/api/auth/register".toList),
  ("/api/auth/refresh".toList, "http://localhost:8002", "/api/auth/refresh".toList, "/api/auth/refresh".toList),
  ("/api/auth/me".toList, "http://localhost:8002", "/api/auth/me".toList, "/api/auth/me".toList),
  ("/auth/login".toList, "http://localhost:8002", "/auth/login".toList, "/api/auth/login".toList),
  ("/auth/register".toList, "http://localhost:8002", "/auth/register".toList, "/api/auth/register".toList),
  ("/auth/refresh".toList, "http://localhost:8002", "/auth/refresh".toList, "/api/auth/refresh".toList),
  ("/auth/me".toList, "http://localhost:8002", "/auth/me".toList, "/api/auth/me".toList),
  ("/api/tenants/{tenant_id}".toList, "http://localhost:8001", "/api/tenants/{tenant_id}".toList, "/api/tenants/{tenant_id}".toList),
  ("/api/tenants".toList, "http://localhost:8001", "/api/tenants".toList, "/api/tenants".toList),
  ("/api/tenants/{tenant_id}/validate".toList, "http://localhost:8001", "/api/tenants/{tenant_id}/validate".toList, "/api/tenants/{tenant_id}/validate".toList),
  ("/api/tenants/{tenant_id}/stats".toList, "http://localhost:8001", "/api/tenants/{tenant_id}/stats".toList, "/api/tenants/{tenant_id}/stats".toList),
  ("/api/auth/tenants/{tenant_id}".toList, "http://localhost:8001", "/api/auth/tenants/{tenant_id}".toList, "/api/tenants/{tenant_id}".toList),
  ("/api/auth/tenants".toList, "http://localhost:8001", "/api/auth/tenants".toList, "/api/tenants".toList),
  ("/api/auth/tenants/{tenant_id}/validate".toList, "http://localhost:8001", "/api/auth/tenants/{tenant_id}/validate".toList, "/api/tenants/{tenant_id}/validate".toList),
  ("/api/auth/tenants/{tenant_id}/stats".toList, "http://localhost:8001", "/api/auth/tenants/{tenant_id}/stats".toList, "/api/tenants/{tenant_id}/stats".toList),
  ("/api/tiers/frontend_format".toList, "http://localhost:8003", "/api/tiers/frontend_format".toList, "/api/tiers/frontend_format".toList),
  ("/api/tiers/stats".toList, "http://localhost:8003", "/api/tiers/stats".toList, "/api/tiers/stats".toList),
  ("/api/tiers/{id}".toList, "http://localhost:8003", "/api/tiers/{id}".toList, "/api/tiers/{id}".toList),
  ("/api/tiers/{id}/vue_360".toList, "http://localhost:8003", "/api/tiers/{id}/vue_360".toList, "/api/tiers/{id}/vue_360".toList),
  ("/api/tiers/{id}/restaurer".toList, "http://localhost:8003", "/api/tiers/{id}/restaurer".toList, "/api/tiers/{id}/restore".toList),
  ("/api/tiers".toList, "http://localhost:8003", "/api/tiers".toList, "/api/tiers".toList),
  ("/api/clients".toList, "http://localhost:8003", "/api/clients".toList, "/api/tiers".toList),
  ("/api/prospects".toList, "http://localhost:8003", "/api/prospects".toList, "/api/tiers".toList),
  ("/api/fournisseurs".toList, "http://localhost:8003", "/api/fournisseurs".toList, "/api/tiers".toList),
  ("/api/opportunities".toList, "http://localhost:8003", "/api/opportunities".toList, "/api/opportunities".toList),
  ("/api/opportunities/{id}".toList, "http://localhost:8003", "/api/opportunities/{id}".toList, "/api/opportunities/{id}".toList),
  ("/api/opportunities/stats".toList, "http://localhost:8003", "/api/opportunities/stats".toList, "/api/opportunities/stats".toList),
  ("/api/opportunities/kanban".toList, "http://localhost:8003", "/api/opportunities/kanban".toList, "/api/opportunities/kanban".toList),
  ("/api/opportunities/{id}/update_stage".toList, "http://localhost:8003", "/api/opportunities/{id}/update_stage".toList, "/api/opportunities/{id}/update_stage".toList),
  ("/api/opportunities/{id}/mark_won".toList, "http://localhost:8003", "/api/opportunities/{id}/mark_won".toList, "/api/opportunities/{id}/mark_won".toList),
  ("/api/opportunities/{id}/mark_lost".toList, "http://localhost:8003", "/api/opportunities/{id}/mark_lost".toList, "/api/opportunities/{id}/mark_lost".toList),
  ("/tiers/frontend_format".toList, "http://localhost:8003", "/tiers/frontend_format".toList, "/api/crm/tiers/frontend_format".toList),
  ("/tiers/stats".toList, "http://localhost:8003", "/tiers/stats".toList, "/api/crm/tiers/stats".toList),
  ("/tiers/{id}".toList, "http://localhost:8003", "/tiers/{id}".toList, "/api/crm/tiers/{id}".toList),
  ("/tiers/{id}/vue_360".toList, "http://localhost:8003", "/tiers/{id}/vue_360".toList, "/api/crm/tiers/{id}/vue_360".toList),
  ("/tiers/{id}/restaurer".toList, "http://localhost:8003", "/tiers/{id}/restaurer".toList, "/api/crm/tiers/{id}/restore".toList),
  ("/tiers".toList, "http://localhost:8003", "/tiers".toList, "/api/crm/tiers".toList),
  ("/clients".toList, "http://localhost:8003", "/clients".toList, "/api/crm/tiers".toList),
  ("/prospects".toList, "http://localhost:8003", "/prospects".toList, "/api/crm/tiers".toList),
  ("/fournisseurs".toList, "http://localhost:8003", "/fournisseurs".toList, "/api/crm/tiers".toList),
  ("/opportunities".toList, "http://localhost:8003", "/opportunities".toList, "/api/crm/opportunities".toList),
  ("/opportunities/{id}".toList, "http://localhost:8003", "/opportunities/{id}".toList, "/api/crm/opportunities/{id}".toList),
  ("/opportunities/stats".toList, "http://localhost:8003", "/opportunities/stats".toList, "/api/crm/opportunities/stats".toList),
  ("/opportunities/kanban".toList, "http://localhost:8003", "/opportunities/kanban".toList, "/api/crm/opportunities/kanban".toList),
  ("/opportunities/{id}/update_stage".toList, "http://localhost:8003", "/opportunities/{id}/update_stage".toList, "/api/crm/opportunities/{id}/update_stage".toList),
  ("/opportunities/{id}/mark_won".toList, "http://localhost:8003", "/opportunities/{id}/mark_won".toList, "/api/crm/opportunities/{id}/mark_won".toList),
  ("/opportunities/{id}/mark_lost".toList, "http://localhost:8003", "/opportunities/{id}/mark_lost".toList, "/api/crm/opportunities/{id}/mark_lost".toList),
  ("/api/devis".toList, "http://localhost:8004", "/api/devis".toList, "/api/quotes".toList),
  ("/api/devis/stats".toList, "http://localhost:8004", "/api/devis/stats".toList, "/api/quotes/stats".toList),
  ("/api/devis/{id}".toList, "http://localhost:8004", "/api/devis/{id}".toList, "/api/quotes/{id}".toList),
  ("/api/devis/{id}/send".toList, "http://localhost:8004", "/api/devis/{id}/send".toList, "/api/quotes/{id}/send".toList),
  ("/api/devis/{id}/validate".toList, "http://localhost:8004", "/api/devis/{id}/validate".toList, "/api/quotes/{id}/validate".toList),
  ("/api/devis/{id}/convert_to_invoice".toList, "http://localhost:8004", "/api/devis/{id}/convert_to_invoice".toList, "/api/quotes/{id}/convert_to_invoice".toList),
  ("/api/devis/{id}/duplicate".toList, "http://localhost:8004", "/api/devis/{id}/duplicate".toList, "/api/quotes/{id}/duplicate".toList),
  ("/api/devis/{id}/pdf".toList, "http://localhost:8004", "/api/devis/{id}/pdf".toList, "/api/quotes/{id}/pdf".toList),
  ("/api/devis/{id}/export".toList, "http://localhost:8004", "/api/devis/{id}/export".toList, "/api/quotes/{id}/export".toList),
  ("/api/devis/{id}/items".toList, "http://localhost:8004", "/api/devis/{id}/items".toList, "/api/quotes/{id}/items".toList),
  ("/api/factures".toList, "http://localhost:8004", "/api/factures".toList, "/api/invoices".toList),
  ("/api/factures/stats".toList, "http://localhost:8004", "/api/factures/stats".toList, "/api/invoices/stats".toList),
  ("/api/factures/{id}".toList, "http://localhost:8004", "/api/factures/{id}".toList, "/api/invoices/{id}".toList),
  ("/api/factures/{id}/validate".toList, "http://localhost:8004", "/api/factures/{id}/validate".toList, "/api/invoices/{id}/validate".toList),
  ("/api/factures/{id}/record_payment".toList, "http://localhost:8004", "/api/factures/{id}/record_payment".toList, "/api/invoices/{id}/record_payment".toList),
  ("/api/factures/{id}/create_credit_note".toList, "http://localhost:8004", "/api/factures/{id}/create_credit_note".toList, "/api/invoices/{id}/create_credit_note".toList),
  ("/api/factures/{id}/pdf".toList, "http://localhost:8004", "/api/factures/{id}/pdf".toList, "/api/invoices/{id}/pdf".toList),
  ("/api/factures/{id}/export".toList, "http://localhost:8004", "/api/factures/{id}/export".toList, "/api/invoices/{id}/export".toList),
  ("/api/factures/{id}/items".toList, "http://localhost:8004", "/api/factures/{id}/items".toList, "/api/invoices/{id}/items".toList),
  ("/api/factures/{id}/payments".toList, "http://localhost:8004", "/api/factures/{id}/payments".toList, "/api/invoices/{id}/payments".toList),
  ("/api/quotes".toList, "http://localhost:8004", "/api/quotes".toList, "/api/quotes".toList),
  ("/api/quotes/next-number".toList, "http://localhost:8004", "/api/quotes/next-number".toList, "/api/quotes/next_number".toList),
  ("/api/projects/next-reference".toList, "http://localhost:8004", "/api/projects/next-reference".toList, "/api/projects/next-reference".toList),
  ("/api/quote-items".toList, "http://localhost:8004", "/api/quote-items".toList, "/api/quote-items".toList),
  ("/api/invoices".toList, "http://localhost:8004", "/api/invoices".toList, "/api/invoices".toList),
  ("/api/invoice-items".toList, "http://localhost:8004", "/api/invoice-items".toList, "/api/invoice-items".toList),
  ("/quotes".toList, "http://localhost:8004", "/quotes".toList, "/api/quotes".toList),
  ("/quotes/stats".toList, "http://localhost:8004", "/quotes/stats".toList, "/api/quotes/stats".toList),
  ("/quotes/{id}".toList, "http://localhost:8004", "/quotes/{id}".toList, "/api/quotes/{id}".toList),
  ("/quotes/{id}/send".toList, "http://localhost:8004", "/quotes/{id}/send".toList, "/api/quotes/{id}/send".toList),
  ("/quotes/{id}/validate".toList, "http://localhost:8004", "/quotes/{id}/validate".toList, "/api/quotes/{id}/validate".toList),
  ("/quotes/{id}/duplicate".toList, "http://localhost:8004", "/quotes/{id}/duplicate".toList, "/api/quotes/{id}/duplicate".toList),
  ("/quotes/{id}/export".toList, "http://localhost:8004", "/quotes/{id}/export".toList, "/api/quotes/{id}/export".toList),
  ("/quotes/{id}/items".toList, "http://localhost:8004", "/quotes/{id}/items".toList, "/api/quotes/{id}/items".toList),
  ("/quote-items".toList, "http://localhost:8004", "/quote-items".toList, "/api/quote-items".toList),
  ("/invoices".toList, "http://localhost:8004", "/invoices".toList, "/api/invoices".toList),
  ("/invoices/stats".toList, "http://localhost:8004", "/invoices/stats".toList, "/api/invoices/stats".toList),
  ("/invoices/{id}".toList, "http://localhost:8004", "/invoices/{id}".toList, "/api/invoices/{id}".toList),
  ("/invoices/{id}/validate".toList, "http://localhost:8004", "/invoices/{id}/validate".toList, "/api/invoices/{id}/validate".toList),
  ("/invoices/{id}/record_payment".toList, "http://localhost:8004", "/invoices/{id}/record_payment".toList, "/api/invoices/{id}/record_payment".toList),
  ("/invoices/{id}/create_credit_note".toList, "http://localhost:8004", "/invoices/{id}/create_credit_note".toList, "/api/invoices/{id}/create_credit_note".toList),
  ("/invoices/{id}/export".toList, "http://localhost:8004", "/invoices/{id}/export".toList, "/api/invoices/{id}/export".toList),
  ("/invoices/{id}/items".toList, "http://localhost:8004", "/invoices/{id}/items".toList, "/api/invoices/{id}/items".toList),
  ("/invoices/{id}/payments".toList, "http://localhost:8004", "/invoices/{id}/payments".toList, "/api/invoices/{id}/payments".toList),
  ("/vat-rates".toList, "http://localhost:8004", "/vat-rates".toList, "/api/quotes/vat-rates".toList),
  ("/api/quotes/vat-rates".toList, "http://localhost:8004", "/api/quotes/vat-rates".toList, "/api/quotes/vat-rates".toList),
  ("/api/quotes/payment-terms".toList, "http://localhost:8004", "/api/quotes/payment-terms".toList, "/api/payment-terms".toList),
  ("/payment-terms".toList, "http://localhost:8004", "/payment-terms".toList, "/api/payment-terms".toList),
  ("/tenants/{tenant_id}".toList, "http://localhost:8001", "/tenants/{tenant_id}".toList, "/api/tenants/{tenant_id}".toList),
  ("/tenants/{tenant_id}/validate".toList, "http://localhost:8001", "/tenants/{tenant_id}/validate".toList, "/api/tenants/{tenant_id}/validate".toList),
  ("/tenants/{tenant_id}/stats".toList, "http://localhost:8001", "/tenants/{tenant_id}/stats".toList, "/api/tenants/{tenant_id}/stats".toList),
  ("/tenants/current_tenant_info".toList, "http://localhost:8001", "/tenants/current_tenant_info".toList, "/api/tenants/current_tenant_info".toList),
  ("/api/tenant/vat_rates".toList, "http://localhost:8001", "/api/tenant/vat_rates".toList, "/api/vat_rates".toList),
  ("/api/tenants/vat_rates".toList, "http://localhost:8001", "/api/tenants/vat_rates".toList, "/api/vat_rates".toList),
  ("/tenants/vat_rates".toList, "http://localhost:8001", "/tenants/vat_rates".toList, "/api/vat_rates".toList),
  ("/api/tenants/payment_terms".toList, "http://localhost:8001", "/api/tenants/payment_terms".toList, "/api/payment_terms".toList),
  ("/tenants/payment_terms".toList, "http://localhost:8001", "/tenants/payment_terms".toList, "/api/payment_terms".toList),
  ("/auth/tenants/{tenant_id}".toList, "http://localhost:8001", "/auth/tenants/{tenant_id}".toList, "/api/tenants/current_tenant_info".toList),
  ("/auth/tenants".toList, "http://localhost:8001", "/auth/tenants".toList, "/api/tenants".toList),
  ("/api/document_appearance".toList, "http://localhost:8001", "/api/document_appearance".toList, "/api/document_appearance".toList),
  ("/api/document_appearance/defaults".toList, "http://localhost:8001", "/api/document_appearance/defaults".toList, "/api/document_appearance/defaults".toList),
  ("/api/document_appearance/templates".toList, "http://localhost:8001", "/api/document_appearance/templates".toList, "/api/document_appearance/templates".toList),
  ("/api/document_appearance/presets".toList, "http://localhost:8001", "/api/document_appearance/presets".toList, "/api/document_appearance/presets".toList),
  ("/api/document_appearance/colors".toList, "http://localhost:8001", "/api/document_appearance/colors".toList, "/api/document_appearance/colors".toList),
  ("/document_appearance".toList, "http://localhost:8001", "/document_appearance".toList, "/api/document_appearance".toList),
  ("/document_appearance/defaults".toList, "http://localhost:8001", "/document_appearance/defaults".toList, "/api/document_appearance/defaults".toList),
  ("/document_appearance/templates".toList, "http://localhost:8001", "/document_appearance/templates".toList, "/api/document_appearance/templates".toList),
  ("/document_appearance/presets".toList, "http://localhost:8001", "/document_appearance/presets".toList, "/api/document_appearance/presets".toList),
  ("/document_appearance/colors".toList, "http://localhost:8001", "/document_appearance/colors".toList, "/api/document_appearance/colors".toList),
  ("/api/library/categories".toList, "http://localhost:8005", "/api/library/categories".toList, "/api/categories".toList),
  ("/api/library/fournitures".toList, "http://localhost:8005", "/api/library/fournitures".toList, "/api/fournitures".toList),
  ("/api/library/main-oeuvre".toList, "http://localhost:8005", "/api/library/main-oeuvre".toList, "/api/main-oeuvre".toList),
  ("/api/library/ouvrages".toList, "http://localhost:8005", "/api/library/ouvrages".toList, "/api/ouvrages".toList),
  ("/api/library/ingredients".toList, "http://localhost:8005", "/api/library/ingredients".toList, "/api/ingredients".toList),
  ("/api/library/search".toList, "http://localhost:8005", "/api/library/search".toList, "/api/search".toList),
  ("/api/library/composite".toList, "http://localhost:8005", "/api/library/composite".toList, "/api/composite".toList),
  ("/api/library/composite/all_items".toList, "http://localhost:8005", "/api/library/composite/all_items".toList, "/api/composite/all_items".toList),
  ("/api/categories".toList, "http://localhost:8005", "/api/categories".toList, "/api/categories".toList),
  ("/api/fournitures".toList, "http://localhost:8005", "/api/fournitures".toList, "/api/fournitures".toList),
  ("/api/main-oeuvre".toList, "http://localhost:8005", "/api/main-oeuvre".toList, "/api/main-oeuvre".toList),
  ("/api/ouvrages".toList, "http://localhost:8005", "/api/ouvrages".toList, "/api/ouvrages".toList),
  ("/api/ingredients".toList, "http://localhost:8005", "/api/ingredients".toList, "/api/ingredients".toList),
  ("/categories".toList, "http://localhost:8005", "/categories".toList, "/api/categories".toList),
  ("/fournitures".toList, "http://localhost:8005", "/fournitures".toList, "/api/fournitures".toList),
  ("/main-oeuvre".toList, "http://localhost:8005", "/main-oeuvre".toList, "/api/main-oeuvre".toList),
  ("/ouvrages".toList, "http://localhost:8005", "/ouvrages".toList, "/api/ouvrages".toList),
  ("/ingredients".toList, "http://localhost:8005", "/ingredients".toList, "/api/ingredients".toList),
  ("/library/search".toList, "http://localhost:8005", "/library/search".toList, "/api/search".toList),
  ("/library/composite".toList, "http://localhost:8005", "/library/composite".toList, "/api/composite".toList),
  ("/library/composite/all_items".toList, "http://localhost:8005", "/library/composite/all_items".toList, "/api/composite/all_items".toList),
  ("/api/categories/racines".toList, "http://localhost:8005", "/api/categories/racines".toList, "/api/categories/racines".toList),
  ("/api/categories/stats".toList, "http://localhost:8005", "/api/categories/stats".toList, "/api/categories/stats".toList),
  ("/api/fournitures/stats".toList, "http://localhost:8005", "/api/fournitures/stats".toList, "/api/fournitures/stats".toList),
  ("/api/fournitures/par_categorie".toList, "http://localhost:8005", "/api/fournitures/par_categorie".toList, "/api/fournitures/par_categorie".toList),
  ("/api/main-oeuvre/stats".toList, "http://localhost:8005", "/api/main-oeuvre/stats".toList, "/api/main-oeuvre/stats".toList),
  ("/api/main-oeuvre/par_categorie".toList, "http://localhost:8005", "/api/main-oeuvre/par_categorie".toList, "/api/main-oeuvre/par_categorie".toList),
  ("/api/ouvrages/stats".toList, "http://localhost:8005", "/api/ouvrages/stats".toList, "/api/ouvrages/stats".toList),
  ("/api/ouvrages/par_categorie".toList, "http://localhost:8005", "/api/ouvrages/par_categorie".toList, "/api/ouvrages/par_categorie".toList),
  ("/api/ingredients/stats".toList, "http://localhost:8005", "/api/ingredients/stats".toList, "/api/ingredients/stats".toList),
  ("/api/ingredients/par_ouvrage".toList, "http://localhost:8005", "/api/ingredients/par_ouvrage".toList, "/api/ingredients/par_ouvrage".toList)
]

/-- The exact-match cache compiled from the configuration, spelled out as
a literal table; `buildRouteCache_eq` proves it equal to the
`_compile_route_cache` construction, and the concrete routing facts are
evaluated against this literal to keep kernel evaluation cheap. -/
def routeCacheLit : List (Path × String × Path) := [
  ("/api/auth/login/".toList, "http://localhost:8002", "/api/auth/login/".toList),
  ("/api/auth/register/".toList, "http://localhost:8002", "/api/auth/register/".toList),
  ("/api/auth/refresh/".toList, "http://localhost:8002", "/api/auth/refresh/".toList),
  ("/api/auth/me/".toList, "http://localhost:8002", "/api/auth/me/".toList),
  ("/auth/login/".toList, "http://localhost:8002", "/api/auth/login/".toList),
  ("/auth/register/".toList, "http://localhost:8002", "/api/auth/register/".toList),
  ("/auth/refresh/".toList, "http://localhost:8002", "/api/auth/refresh/".toList),
  ("/auth/me/".toList, "http://localhost:8002", "/api/auth/me/".toList),
  ("/api/tenants/{tenant_id}/".toList, "http://localhost:8001", "/api/tenants/{tenant_id}/".toList),
  ("/api/tenants/".toList, "http://localhost:8001", "/api/tenants/".toList),
  ("/api/tenants/{tenant_id}/validate/".toList, "http://localhost:8001", "/api/tenants/{tenant_id}/validate/".toList),
  ("/api/tenants/{tenant_id}/stats/".toList, "http://localhost:8001", "/api/tenants/{tenant_id}/stats/".toList),
  ("/api/auth/tenants/{tenant_id}/".toList, "http://localhost:8001", "/api/tenants/{tenant_id}/".toList),
  ("/api/auth/tenants/".toList, "http://localhost:8001", "/api/tenants/".toList),
  ("/api/auth/tenants/{tenant_id}/validate/".toList, "http://localhost:8001", "/api/tenants/{tenant_id}/validate/".toList),
  ("/api/auth/tenants/{tenant_id}/stats/".toList, "http://localhost:8001", "/api/tenants/{tenant_id}/stats/".toList),
  ("/api/tiers/frontend_format/".toList, "http://localhost:8003", "/api/tiers/frontend_format/".toList),
  ("/api/tiers/stats/".toList, "http://localhost:8003", "/api/tiers/stats/".toList),
  ("/api/tiers/{id}/".toList, "http://localhost:8003", "/api/tiers/{id}/".toList),
  ("/api/tiers/{id}/vue_360/".toList, "http://localhost:8003", "/api/tiers/{id}/vue_360/".toList),
  ("/api/tiers/{id}/restaurer/".toList, "http://localhost:8003", "/api/tiers/{id}/restore/".toList),
  ("/api/tiers/".toList, "http://localhost:8003", "/api/tiers/".toList),
  ("/api/clients/".toList, "http://localhost:8003", "/api/tiers/".toList),
  ("/api/prospects/".toList, "http://localhost:8003", "/api/tiers/".toList),
  ("/api/fournisseurs/".toList, "http://localhost:8003", "/api/tiers/".toList),
  ("/api/opportunities/".toList, "http://localhost:8003", "/api/opportunities/".toList),
  ("/api/opportunities/{id}/".toList, "http://localhost:8003", "/api/opportunities/{id}/".toList),
  ("/api/opportunities/stats/".toList, "http://localhost:8003", "/api/opportunities/stats/".toList),
  ("/api/opportunities/kanban/".toList, "http://localhost:8003", "/api/opportunities/kanban/".toList),
  ("/api/opportunities/{id}/update_stage/".toList, "http://localhost:8003", "/api/opportunities/{id}/update_stage/".toList),
  ("/api/opportunities/{id}/mark_won/".toList, "http://localhost:8003", "/api/opportunities/{id}/mark_won/".toList),
  ("/api/opportunities/{id}/mark_lost/".toList, "http://localhost:8003", "/api/opportunities/{id}/mark_lost/".toList),
  ("/tiers/frontend_format/".toList, "http://localhost:8003", "/api/crm/tiers/frontend_format/".toList),
  ("/tiers/stats/".toList, "http://localhost:8003", "/api/crm/tiers/stats/".toList),
  ("/tiers/{id}/".toList, "http://localhost:8003", "/api/crm/tiers/{id}/".toList),
  ("/tiers/{id}/vue_360/".toList, "http://localhost:8003", "/api/crm/tiers/{id}/vue_360/".toList),
  ("/tiers/{id}/restaurer/".toList, "http://localhost:8003", "/api/crm/tiers/{id}/restore/".toList),
  ("/tiers/".toList, "http://localhost:8003", "/api/crm/tiers/".toList),
  ("/clients/".toList, "http://localhost:8003", "/api/crm/tiers/".toList),
  ("/prospects/".toList, "http://localhost:8003", "/api/crm/tiers/".toList),
  ("/fournisseurs/".toList, "http://localhost:8003", "/api/crm/tiers/".toList),
  ("/opportunities/".toList, "http://localhost:8003", "/api/crm/opportunities/".toList),
  ("/opportunities/{id}/".toList, "http://localhost:8003", "/api/crm/opportunities/{id}/".toList),
  ("/opportunities/stats/".toList, "http://localhost:8003", "/api/crm/opportunities/stats/".toList),
  ("/opportunities/kanban/".toList, "http://localhost:8003", "/api/crm/opportunities/kanban/".toList),
  ("/opportunities/{id}/update_stage/".toList, "http://localhost:8003", "/api/crm/opportunities/{id}/update_stage/".toList),
  ("/opportunities/{id}/mark_won/".toList, "http://localhost:8003", "/api/crm/opportunities/{id}/mark_won/".toList),
  ("/opportunities/{id}/mark_lost/".toList, "http://localhost:8003", "/api/crm/opportunities/{id}/mark_lost/".toList),
  ("/api/devis/".toList, "http://localhost:8004", "/api/quotes/".toList),
  ("/api/devis/stats/".toList, "http://localhost:8004", "/api/quotes/stats/".toList),
  ("/api/devis/{id}/".toList, "http://localhost:8004", "/api/quotes/{id}/".toList),
  ("/api/devis/{id}/send/".toList, "http://localhost:8004", "/api/quotes/{id}/send/".toList),
  ("/api/devis/{id}/validate/".toList, "http://localhost:8004", "/api/quotes/{id}/validate/".toList),
  ("/api/devis/{id}/convert_to_invoice/".toList, "http://localhost:8004", "/api/quotes/{id}/convert_to_invoice/".toList),
  ("/api/devis/{id}/duplicate/".toList, "http://localhost:8004", "/api/quotes/{id}/duplicate/".toList),
  ("/api/devis/{id}/pdf/".toList, "http://localhost:8004", "/api/quotes/{id}/pdf/".toList),
  ("/api/devis/{id}/export/".toList, "http://localhost:8004", "/api/quotes/{id}/export/".toList),
  ("/api/devis/{id}/items/".toList, "http://localhost:8004", "/api/quotes/{id}/items/".toList),
  ("/api/factures/".toList, "http://localhost:8004", "/api/invoices/".toList),
  ("/api/factures/stats/".toList, "http://localhost:8004", "/api/invoices/stats/".toList),
  ("/api/factures/{id}/".toList, "http://localhost:8004", "/api/invoices/{id}/".toList),
  ("/api/factures/{id}/validate/".toList, "http://localhost:8004", "/api/invoices/{id}/validate/".toList),
  ("/api/factures/{id}/record_payment/".toList, "http://localhost:8004", "/api/invoices/{id}/record_payment/".toList),
  ("/api/factures/{id}/create_credit_note/".toList, "http://localhost:8004", "/api/invoices/{id}/create_credit_note/".toList),
  ("/api/factures/{id}/pdf/".toList, "http://localhost:8004", "/api/invoices/{id}/pdf/".toList),
  ("/api/factures/{id}/export/".toList, "http://localhost:8004", "/api/invoices/{id}/export/".toList),
  ("/api/factures/{id}/items/".toList, "http://localhost:8004", "/api/invoices/{id}/items/".toList),
  ("/api/factures/{id}/payments/".toList, "http://localhost:8004", "/api/invoices/{id}/payments/".toList),
  ("/api/quotes/".toList, "http://localhost:8004", "/api/quotes/".toList),
  ("/api/quotes/next-number/".toList, "http://localhost:8004", "/api/quotes/next_number/".toList),
  ("/api/projects/next-reference/".toList, "http://localhost:8004", "/api/projects/next-reference/".toList),
  ("/api/quote-items/".toList, "http://localhost:8004", "/api/quote-items/".toList),
  ("/api/invoices/".toList, "http://localhost:8004", "/api/invoices/".toList),
  ("/api/invoice-items/".toList, "http://localhost:8004", "/api/invoice-items/".toList),
  ("/quotes/".toList, "http://localhost:8004", "/api/quotes/".toList),
  ("/quotes/stats/".toList, "http://localhost:8004", "/api/quotes/stats/".toList),
  ("/quotes/{id}/".toList, "http://localhost:8004", "/api/quotes/{id}/".toList),
  ("/quotes/{id}/send/".toList, "http://localhost:8004", "/api/quotes/{id}/send/".toList),
  ("/quotes/{id}/validate/".toList, "http://localhost:8004", "/api/quotes/{id}/validate/".toList),
  ("/quotes/{id}/duplicate/".toList, "http://localhost:8004", "/api/quotes/{id}/duplicate/".toList),
  ("/quotes/{id}/export/".toList, "http://localhost:8004", "/api/quotes/{id}/export/".toList),
  ("/quotes/{id}/items/".toList, "http://localhost:8004", "/api/quotes/{id}/items/".toList),
  ("/quote-items/".toList, "http://localhost:8004", "/api/quote-items/".toList),
  ("/invoices/".toList, "http://localhost:8004", "/api/invoices/".toList),
  ("/invoices/stats/".toList, "http://localhost:8004", "/api/invoices/stats/".toList),
  ("/invoices/{id}/".toList, "http://localhost:8004", "/api/invoices/{id}/".toList),
  ("/invoices/{id}/validate/".toList, "http://localhost:8004", "/api/invoices/{id}/validate/".toList),
  ("/invoices/{id}/record_payment/".toList, "http://localhost:8004", "/api/invoices/{id}/record_payment/".toList),
  ("/invoices/{id}/create_credit_note/".toList, "http://localhost:8004", "/api/invoices/{id}/create_credit_note/".toList),
  ("/invoices/{id}/export/".toList, "http://localhost:8004", "/api/invoices/{id}/export/".toList),
  ("/invoices/{id}/items/".toList, "http://localhost:8004", "/api/invoices/{id}/items/".toList),
  ("/invoices/{id}/payments/".toList, "http://localhost:8004", "/api/invoices/{id}/payments/".toList),
  ("/vat-rates/".toList, "http://localhost:8004", "/api/quotes/vat-rates/".toList),
  ("/api/quotes/vat-rates/".toList, "http://localhost:8004", "/api/quotes/vat-rates/".toList),
  ("/api/quotes/payment-terms/".toList, "http://localhost:8004", "/api/payment-terms/".toList),
  ("/payment-terms/".toList, "http://localhost:8004", "/api/payment-terms/".toList),
  ("/tenants/{tenant_id}/".toList, "http://localhost:8001", "/api/tenants/{tenant_id}/".toList),
  ("/tenants/{tenant_id}/validate/".toList, "http://localhost:8001", "/api/tenants/{tenant_id}/validate/".toList),
  ("/tenants/{tenant_id}/stats/".toList, "http://localhost:8001", "/api/tenants/{tenant_id}/stats/".toList),
  ("/tenants/current_tenant_info/".toList, "http://localhost:8001", "/api/tenants/current_tenant_info/".toList),
  ("/api/tenant/vat_rates/".toList, "http://localhost:8001", "/api/vat_rates/".toList),
  ("/api/tenants/vat_rates/".toList, "http://localhost:8001", "/api/vat_rates/".toList),
  ("/tenants/vat_rates/".toList, "http://localhost:8001", "/api/vat_rates/".toList),
  ("/api/tenants/payment_terms/".toList, "http://localhost:8001", "/api/payment_terms/".toList),
  ("/tenants/payment_terms/".toList, "http://localhost:8001", "/api/payment_terms/".toList),
  ("/auth/tenants/{tenant_id}/".toList, "http://localhost:8001", "/api/tenants/current_tenant_info/".toList),
  ("/auth/tenants/".toList, "http://localhost:8001", "/api/tenants/".toList),
  ("/api/document_appearance/".toList, "http://localhost:8001", "/api/document_appearance/".toList),
  ("/api/document_appearance/defaults/".toList, "http://localhost:8001", "/api/document_appearance/defaults/".toList),
  ("/api/document_appearance/templates/".toList, "http://localhost:8001", "/api/document_appearance/templates/".toList),
  ("/api/document_appearance/presets/".toList, "http://localhost:8001", "/api/document_appearance/presets/".toList),
  ("/api/document_appearance/colors/".toList, "http://localhost:8001", "/api/document_appearance/colors/".toList),
  ("/document_appearance/".toList, "http://localhost:8001", "/api/document_appearance/".toList),
  ("/document_appearance/defaults/".toList, "http://localhost:8001", "/api/document_appearance/defaults/".toList),
  ("/document_appearance/templates/".toList, "http://localhost:8001", "/api/document_appearance/templates/".toList),
  ("/document_appearance/presets/".toList, "http://localhost:8001", "/api/document_appearance/presets/".toList),
  ("/document_appearance/colors/".toList, "http://localhost:8001", "/api/document_appearance/colors/".toList),
  ("/api/library/categories/".toList, "http://localhost:8005", "/api/categories/".toList),
  ("/api/library/fournitures/".toList, "http://localhost:8005", "/api/fournitures/".toList),
  ("/api/library/main-oeuvre/".toList, "http://localhost:8005", "/api/main-oeuvre/".toList),
  ("/api/library/ouvrages/".toList, "http://localhost:8005", "/api/ouvrages/".toList),
  ("/api/library/ingredients/".toList, "http://localhost:8005", "/api/ingredients/".toList),
  ("/api/library/search/".toList, "http://localhost:8005", "/api/search/".toList),
  ("/api/library/composite/".toList, "http://localhost:8005", "/api/composite/".toList),
  ("/api/library/composite/all_items/".toList, "http://localhost:8005", "/api/composite/all_items/".toList),
  ("/api/categories/".toList, "http://localhost:8005", "/api/categories/".toList),
  ("/api/fournitures/".toList, "http://localhost:8005", "/api/fournitures/".toList),
  ("/api/main-oeuvre/".toList, "http://localhost:8005", "/api/main-oeuvre/".toList),
  ("/api/ouvrages/".toList, "http://localhost:8005", "/api/ouvrages/".toList),
  ("/api/ingredients/".toList, "http://localhost:8005", "/api/ingredients/".toList),
  ("/categories/".toList, "http://localhost:8005", "/api/categories/".toList),
  ("/fournitures/".toList, "http://localhost:8005", "/api/fournitures/".toList),
  ("/main-oeuvre/".toList, "http://localhost:8005", "/api/main-oeuvre/".toList),
  ("/ouvrages/".toList, "http://localhost:8005", "/api/ouvrages/".toList),
  ("/ingredients/".toList, "http://localhost:8005", "/api/ingredients/".toList),
  ("/library/search/".toList, "http://localhost:8005", "/api/search/".toList),
  ("/library/composite/".toList, "http://localhost:8005", "/api/composite/".toList),
  ("/library/composite/all_items/".toList, "http://localhost:8005", "/api/composite/all_items/".toList),
  ("/api/categories/racines/".toList, "http://localhost:8005", "/api/categories/racines/".toList),
  ("/api/categories/stats/".toList, "http://localhost:8005", "/api/categories/stats/".toList),
  ("/api/fournitures/stats/".toList, "http://localhost:8005", "/api/fournitures/stats/".toList),
  ("/api/fournitures/par_categorie/".toList, "http://localhost:8005", "/api/fournitures/par_categorie/".toList),
  ("/api/main-oeuvre/stats/".toList, "http://localhost:8005", "/api/main-oeuvre/stats/".toList),
  ("/api/main-oeuvre/par_categorie/".toList, "http://localhost:8005", "/api/main-oeuvre/par_categorie/".toList),
  ("/api/ouvrages/stats/".toList, "http://localhost:8005", "/api/ouvrages/stats/".toList),
  ("/api/ouvrages/par_categorie/".toList, "http://localhost:8005", "/api/ouvrages/par_categorie/".toList),
  ("/api/ingredients/stats/".toList, "http://localhost:8005", "/api/ingredients/stats/".toList),
  ("/api/ingredients/par_ouvrage/".toList, "http://localhost:8005", "/api/ingredients/par_ouvrage/".toList)
]

/-- The prefix map compiled from the configuration, spelled out as a
literal table; `buildPfxMap_eq` proves it equal to the
`_compile_route_cache` construction. -/
def pfxMapLit : List (Path × String × Path × Path) := [
  ("/api/auth/login".toList, "http://localhost:8002", "/api/auth/login".toList, "/api/auth/login".toList),
  ("/api/auth/register".toList, "http://localhost:8002", "/api/auth/register".toList, "/api/auth/register".toList),
  ("/api/auth/refresh".toList, "http://localhost:8002", "/api/auth/refresh".toList, "/api/auth/refresh".toList),
  ("/api/auth/me".toList, "http://localhost:8002", "/api/auth/me".toList, "/api/auth/me".toList),
  ("/auth/login".toList, "http://localhost:8002", "/auth/login".toList, "/api/auth/login".toList),
  ("/auth/register".toList, "http://localhost:8002", "/auth/register".toList, "/api/auth/register".toList),
  ("/auth/refresh".toList, "http://localhost:8002", "/auth/refresh".toList, "/api/auth/refresh".toList),
  ("/auth/me".toList, "http://localhost:8002", "/auth/me".toList, "/api/auth/me".toList),
  ("/api/tenants/{tenant_id}".toList, "http://localhost:8001", "/api/tenants/{tenant_id}".toList, "/api/tenants/{tenant_id}".toList),
  ("/api/tenants".toList, "http://localhost:8001", "/api/tenants".toList, "/api/tenants".toList),
  ("/api/tenants/{tenant_id}/validate".toList, "http://localhost:8001", "/api/tenants/{tenant_id}/validate".toList, "/api/tenants/{tenant_id}/validate".toList),
  ("/api/tenants/{tenant_id}/stats".toList, "http://localhost:8001", "/api/tenants/{tenant_id}/stats".toList, "/api/tenants/{tenant_id}/stats".toList),
  ("/api/auth/tenants/{tenant_id}".toList, "http://localhost:8001", "/api/auth/tenants/{tenant_id}".toList, "/api/tenants/{tenant_id}".toList),
  ("/api/auth/tenants".toList, "http://localhost:8001", "/api/auth/tenants".toList, "/api/tenants".toList),
  ("/api/auth/tenants/{tenant_id}/validate".toList, "http://localhost:8001", "/api/auth/tenants/{tenant_id}/validate".toList, "/api/tenants/{tenant_id}/validate".toList),
  ("/api/auth/tenants/{tenant_id}/stats".toList, "http://localhost:8001", "/api/auth/tenants/{tenant_id}/stats".toList, "/api/tenants/{tenant_id}/stats".toList),
  ("/api/tiers/frontend_format".toList, "http://localhost:8003", "/api/tiers/frontend_format".toList, "/api/tiers/frontend_format".toList),
  ("/api/tiers/stats".toList, "http://localhost:8003", "/api/tiers/stats".toList, "/api/tiers/stats".toList),
  ("/api/tiers/{id}".toList, "http://localhost:8003", "/api/tiers/{id}".toList, "/api/tiers/{id}".toList),
  ("/api/tiers/{id}/vue_360".toList, "http://localhost:8003", "/api/tiers/{id}/vue_360".toList, "/api/tiers/{id}/vue_360".toList),
  ("/api/tiers/{id}/restaurer".toList, "http://localhost:8003", "/api/tiers/{id}/restaurer".toList, "/api/tiers/{id}/restore".toList),
  ("/api/tiers".toList, "http://localhost:8003", "/api/tiers".toList, "/api/tiers".toList),
  ("/api/clients".toList, "http://localhost:8003", "/api/clients".toList, "/api/tiers".toList),
  ("/api/prospects".toList, "http://localhost:8003", "/api/prospects".toList, "/api/tiers".toList),
  ("/api/fournisseurs".toList, "http://localhost:8003", "/api/fournisseurs".toList, "/api/tiers".toList),
  ("/api/opportunities".toList, "http://localhost:8003", "/api/opportunities".toList, "/api/opportunities".toList),
  ("/api/opportunities/{id}".toList, "http://localhost:8003", "/api/opportunities/{id}".toList, "/api/opportunities/{id}".toList),
  ("/api/opportunities/stats".toList, "http://localhost:8003", "/api/opportunities/stats".toList, "/api/opportunities/stats".toList),
  ("/api/opportunities/kanban".toList, "http://localhost:8003", "/api/opportunities/kanban".toList, "/api/opportunities/kanban".toList),
  ("/api/opportunities/{id}/update_stage".toList, "http://localhost:8003", "/api/opportunities/{id}/update_stage".toList, "/api/opportunities/{id}/update_stage".toList),
  ("/api/opportunities/{id}/mark_won".toList, "http://localhost:8003", "/api/opportunities/{id}/mark_won".toList, "/api/opportunities/{id}/mark_won".toList),
  ("/api/opportunities/{id}/mark_lost".toList, "http://localhost:8003", "/api/opportunities/{id}/mark_lost".toList, "/api/opportunities/{id}/mark_lost".toList),
  ("/tiers/frontend_format".toList, "http://localhost:8003", "/tiers/frontend_format".toList, "/api/crm/tiers/frontend_format".toList),
  ("/tiers/stats".toList, "http://localhost:8003", "/tiers/stats".toList, "/api/crm/tiers/stats".toList),
  ("/tiers/{id}".toList, "http://localhost:8003", "/tiers/{id}".toList, "/api/crm/tiers/{id}".toList),
  ("/tiers/{id}/vue_360".toList, "http://localhost:8003", "/tiers/{id}/vue_360".toList, "/api/crm/tiers/{id}/vue_360".toList),
  ("/tiers/{id}/restaurer".toList, "http://localhost:8003", "/tiers/{id}/restaurer".toList, "/api/crm/tiers/{id}/restore".toList),
  ("/tiers".toList, "http://localhost:8003", "/tiers".toList, "/api/crm/tiers".toList),
  ("/clients".toList, "http://localhost:8003", "/clients".toList, "/api/crm/tiers".toList),
  ("/prospects".toList, "http://localhost:8003", "/prospects".toList, "/api/crm/tiers".toList),
  ("/fournisseurs".toList, "http://localhost:8003", "/fournisseurs".toList, "/api/crm/tiers".toList),
  ("/opportunities".toList, "http://localhost:8003", "/opportunities".toList, "/api/crm/opportunities".toList),
  ("/opportunities/{id}".toList, "http://localhost:8003", "/opportunities/{id}".toList, "/api/crm/opportunities/{id}".toList),
  ("/opportunities/stats".toList, "http://localhost:8003", "/opportunities/stats".toList, "/api/crm/opportunities/stats".toList),
  ("/opportunities/kanban".toList, "http://localhost:8003", "/opportunities/kanban".toList, "/api/crm/opportunities/kanban".toList),
  ("/opportunities/{id}/update_stage".toList, "http://localhost:8003", "/opportunities/{id}/update_stage".toList, "/api/crm/opportunities/{id}/update_stage".toList),
  ("/opportunities/{id}/mark_won".toList, "http://localhost:8003", "/opportunities/{id}/mark_won".toList, "/api/crm/opportunities/{id}/mark_won".toList),
  ("/opportunities/{id}/mark_lost".toList, "http://localhost:8003", "/opportunities/{id}/mark_lost".toList, "/api/crm/opportunities/{id}/mark_lost".toList),
  ("/api/devis".toList, "http://localhost:8004", "/api/devis".toList, "/api/quotes".toList),
  ("/api/devis/stats".toList, "http://localhost:8004", "/api/devis/stats".toList, "/api/quotes/stats".toList),
  ("/api/devis/{id}".toList, "http://localhost:8004", "/api/devis/{id}".toList, "/api/quotes/{id}".toList),
  ("/api/devis/{id}/send".toList, "http://localhost:8004", "/api/devis/{id}/send".toList, "/api/quotes/{id}/send".toList),
  ("/api/devis/{id}/validate".toList, "http://localhost:8004", "/api/devis/{id}/validate".toList, "/api/quotes/{id}/validate".toList),
  ("/api/devis/{id}/convert_to_invoice".toList, "http://localhost:8004", "/api/devis/{id}/convert_to_invoice".toList, "/api/quotes/{id}/convert_to_invoice".toList),
  ("/api/devis/{id}/duplicate".toList, "http://localhost:8004", "/api/devis/{id}/duplicate".toList, "/api/quotes/{id}/duplicate".toList),
  ("/api/devis/{id}/pdf".toList, "http://localhost:8004", "/api/devis/{id}/pdf".toList, "/api/quotes/{id}/pdf".toList),
  ("/api/devis/{id}/export".toList, "http://localhost:8004", "/api/devis/{id}/export".toList, "/api/quotes/{id}/export".toList),
  ("/api/devis/{id}/items".toList, "http://localhost:8004", "/api/devis/{id}/items".toList, "/api/quotes/{id}/items".toList),
  ("/api/factures".toList, "http://localhost:8004", "/api/factures".toList, "/api/invoices".toList),
  ("/api/factures/stats".toList, "http://localhost:8004", "/api/factures/stats".toList, "/api/invoices/stats".toList),
  ("/api/factures/{id}".toList, "http://localhost:8004", "/api/factures/{id}".toList, "/api/invoices/{id}".toList),
  ("/api/factures/{id}/validate".toList, "http://localhost:8004", "/api/factures/{id}/validate".toList, "/api/invoices/{id}/validate".toList),
  ("/api/factures/{id}/record_payment".toList, "http://localhost:8004", "/api/factures/{id}/record_payment".toList, "/api/invoices/{id}/record_payment".toList),
  ("/api/factures/{id}/create_credit_note".toList, "http://localhost:8004", "/api/factures/{id}/create_credit_note".toList, "/api/invoices/{id}/create_credit_note".toList),
  ("/api/factures/{id}/pdf".toList, "http://localhost:8004", "/api/factures/{id}/pdf".toList, "/api/invoices/{id}/pdf".toList),
  ("/api/factures/{id}/export".toList, "http://localhost:8004", "/api/factures/{id}/export".toList, "/api/invoices/{id}/export".toList),
  ("/api/factures/{id}/items".toList, "http://localhost:8004", "/api/factures/{id}/items".toList, "/api/invoices/{id}/items".toList),
  ("/api/factures/{id}/payments".toList, "http://localhost:8004", "/api/factures/{id}/payments".toList, "/api/invoices/{id}/payments".toList),
  ("/api/quotes".toList, "http://localhost:8004", "/api/quotes".toList, "/api/quotes".toList),
  ("/api/quotes/next-number".toList, "http://localhost:8004", "/api/quotes/next-number".toList, "/api/quotes/next_number".toList),
  ("/api/projects/next-reference".toList, "http://localhost:8004", "/api/projects/next-reference".toList, "/api/projects/next-reference".toList),
  ("/api/quote-items".toList, "http://localhost:8004", "/api/quote-items".toList, "/api/quote-items".toList),
  ("/api/invoices".toList, "http://localhost:8004", "/api/invoices".toList, "/api/invoices".toList),
  ("/api/invoice-items".toList, "http://localhost:8004", "/api/invoice-items".toList, "/api/invoice-items".toList),
  ("/quotes".toList, "http://localhost:8004", "/quotes".toList, "/api/quotes".toList),
  ("/quotes/stats".toList, "http://localhost:8004", "/quotes/stats".toList, "/api/quotes/stats".toList),
  ("/quotes/{id}".toList, "http://localhost:8004", "/quotes/{id}".toList, "/api/quotes/{id}".toList),
  ("/quotes/{id}/send".toList, "http://localhost:8004", "/quotes/{id}/send".toList, "/api/quotes/{id}/send".toList),
  ("/quotes/{id}/validate".toList, "http://localhost:8004", "/quotes/{id}/validate".toList, "/api/quotes/{id}/validate".toList),
  ("/quotes/{id}/duplicate".toList, "http://localhost:8004", "/quotes/{id}/duplicate".toList, "/api/quotes/{id}/duplicate".toList),
  ("/quotes/{id}/export".toList, "http://localhost:8004", "/quotes/{id}/export".toList, "/api/quotes/{id}/export".toList),
  ("/quotes/{id}/items".toList, "http://localhost:8004", "/quotes/{id}/items".toList, "/api/quotes/{id}/items".toList),
  ("/quote-items".toList, "http://localhost:8004", "/quote-items".toList, "/api/quote-items".toList),
  ("/invoices".toList, "http://localhost:8004", "/invoices".toList, "/api/invoices".toList),
  ("/invoices/stats".toList, "http://localhost:8004", "/invoices/stats".toList, "/api/invoices/stats".toList),
  ("/invoices/{id}".toList, "http://localhost:8004", "/invoices/{id}".toList, "/api/invoices/{id}".toList),
  ("/invoices/{id}/validate".toList, "http://localhost:8004", "/invoices/{id}/validate".toList, "/api/invoices/{id}/validate".toList),
  ("/invoices/{id}/record_payment".toList, "http://localhost:8004", "/invoices/{id}/record_payment".toList, "/api/invoices/{id}/record_payment".toList),
  ("/invoices/{id}/create_credit_note".toList, "http://localhost:8004", "/invoices/{id}/create_credit_note".toList, "/api/invoices/{id}/create_credit_note".toList),
  ("/invoices/{id}/export".toList, "http://localhost:8004", "/invoices/{id}/export".toList, "/api/invoices/{id}/export".toList),
  ("/invoices/{id}/items".toList, "http://localhost:8004", "/invoices/{id}/items".toList, "/api/invoices/{id}/items".toList),
  ("/invoices/{id}/payments".toList, "http://localhost:8004", "/invoices/{id}/payments".toList, "/api/invoices/{id}/payments".toList),
  ("/vat-rates".toList, "http://localhost:8004", "/vat-rates".toList, "/api/quotes/vat-rates".toList),
  ("/api/quotes/vat-rates".toList, "http://localhost:8004", "/api/quotes/vat-rates".toList, "/api/quotes/vat-rates".toList),
  ("/api/quotes/payment-terms".toList, "http://localhost:8004", "/api/quotes/payment-terms".toList, "/api/payment-terms".toList),
  ("/payment-terms".toList, "http://localhost:8004", "/payment-terms".toList, "/api/payment-terms".toList),
  ("/tenants/{tenant_id}".toList, "http://localhost:8001", "/tenants/{tenant_id}".toList, "/api/tenants/{tenant_id}".toList),
  ("/tenants/{tenant_id}/validate".toList, "http://localhost:8001", "/tenants/{tenant_id}/validate".toList, "/api/tenants/{tenant_id}/validate".toList),
  ("/tenants/{tenant_id}/stats".toList, "http://localhost:8001", "/tenants/{tenant_id}/stats".toList, "/api/tenants/{tenant_id}/stats".toList),
  ("/tenants/current_tenant_info".toList, "http://localhost:8001", "/tenants/current_tenant_info".toList, "/api/tenants/current_tenant_info".toList),
  ("/api/tenant/vat_rates".toList, "http://localhost:8001", "/api/tenant/vat_rates".toList, "/api/vat_rates".toList),
  ("/api/tenants/vat_rates".toList, "http://localhost:8001", "/api/tenants/vat_rates".toList, "/api/vat_rates".toList),
  ("/tenants/vat_rates".toList, "http://localhost:8001", "/tenants/vat_rates".toList, "/api/vat_rates".toList),
  ("/api/tenants/payment_terms".toList, "http://localhost:8001", "/api/tenants/payment_terms".toList, "/api/payment_terms".toList),
  ("/tenants/payment_terms".toList, "http://localhost:8001", "/tenants/payment_terms".toList, "/api/payment_terms".toList),
  ("/auth/tenants/{tenant_id}".toList, "http://localhost:8001", "/auth/tenants/{tenant_id}".toList, "/api/tenants/current_tenant_info".toList),
  ("/auth/tenants".toList, "http://localhost:8001", "/auth/tenants".toList, "/api/tenants".toList),
  ("/api/document_appearance".toList, "http://localhost:8001", "/api/document_appearance".toList, "/api/document_appearance".toList),
  ("/api/document_appearance/defaults".toList, "http://localhost:8001", "/api/document_appearance/defaults".toList, "/api/document_appearance/defaults".toList),
  ("/api/document_appearance/templates".toList, "http://localhost:8001", "/api/document_appearance/templates".toList, "/api/document_appearance/templates".toList),
  ("/api/document_appearance/presets".toList, "http://localhost:8001", "/api/document_appearance/presets".toList, "/api/document_appearance/presets".toList),
  ("/api/document_appearance/colors".toList, "http://localhost:8001", "/api/document_appearance/colors".toList, "/api/document_appearance/colors".toList),
  ("/document_appearance".toList, "http://localhost:8001", "/document_appearance".toList, "/api/document_appearance".toList),
  ("/document_appearance/defaults".toList, "http://localhost:8001", "/document_appearance/defaults".toList, "/api/document_appearance/defaults".toList),
  ("/document_appearance/templates".toList, "http://localhost:8001", "/document_appearance/templates".toList, "/api/document_appearance/templates".toList),
  ("/document_appearance/presets".toList, "http://localhost:8001", "/document_appearance/presets".toList, "/api/document_appearance/presets".toList),
  ("/document_appearance/colors".toList, "http://localhost:8001", "/document_appearance/colors".toList, "/api/document_appearance/colors".toList),
  ("/api/library/categories".toList, "http://localhost:8005", "/api/library/categories".toList, "/api/categories".toList),
  ("/api/library/fournitures".toList, "http://localhost:8005", "/api/library/fournitures".toList, "/api/fournitures".toList),
  ("/api/library/main-oeuvre".toList, "http://localhost:8005", "/api/library/main-oeuvre".toList, "/api/main-oeuvre".toList),
  ("/api/library/ouvrages".toList, "http://localhost:8005", "/api/library/ouvrages".toList, "/api/ouvrages".toList),
  ("/api/library/ingredients".toList, "http://localhost:8005", "/api/library/ingredients".toList, "/api/ingredients".toList),
  ("/api/library/search".toList, "http://localhost:8005", "/api/library/search".toList, "/api/search".toList),
  ("/api/library/composite".toList, "http://localhost:8005", "/api/library/composite".toList, "/api/composite".toList),
  ("/api/library/composite/all_items".toList, "http://localhost:8005", "/api/library/composite/all_items".toList, "/api/composite/all_items".toList),
  ("/api/categories".toList, "http://localhost:8005", "/api/categories".toList, "/api/categories".toList),
  ("/api/fournitures".toList, "http://localhost:8005", "/api/fournitures".toList, "/api/fournitures".toList),
  ("/api/main-oeuvre".toList, "http://localhost:8005", "/api/main-oeuvre".toList, "/api/main-oeuvre".toList),
  ("/api/ouvrages".toList, "http://localhost:8005", "/api/ouvrages".toList, "/api/ouvrages".toList),
  ("/api/ingredients".toList, "http://localhost:8005", "/api/ingredients".toList, "/api/ingredients".toList),
  ("/categories".toList, "http://localhost:8005", "/categories".toList, "/api/categories".toList),
  ("/fournitures".toList, "http://localhost:8005", "/fournitures".toList, "/api/fournitures".toList),
  ("/main-oeuvre".toList, "http://localhost:8005", "/main-oeuvre".toList, "/api/main-oeuvre".toList),
  ("/ouvrages".toList, "http://localhost:8005", "/ouvrages".toList, "/api/ouvrages".toList),
  ("/ingredients".toList, "http://localhost:8005", "/ingredients".toList, "/api/ingredients".toList),
  ("/library/search".toList, "http://localhost:8005", "/library/search".toList, "/api/search".toList),
  ("/library/composite".toList, "http://localhost:8005", "/library/composite".toList, "/api/composite".toList),
  ("/library/composite/all_items".toList, "http://localhost:8005", "/library/composite/all_items".toList, "/api/composite/all_items".toList),
  ("/api/categories/racines".toList, "http://localhost:8005", "/api/categories/racines".toList, "/api/categories/racines".toList),
  ("/api/categories/stats".toList, "http://localhost:8005", "/api/categories/stats".toList, "/api/categories/stats".toList),
  ("/api/fournitures/stats".toList, "http://localhost:8005", "/api/fournitures/stats".toList, "/api/fournitures/stats".toList),
  ("/api/fournitures/par_categorie".toList, "http://localhost:8005", "/api/fournitures/par_categorie".toList, "/api/fournitures/par_categorie".toList),
  ("/api/main-oeuvre/stats".toList, "http://localhost:8005", "/api/main-oeuvre/stats".toList, "/api/main-oeuvre/stats".toList),
  ("/api/main-oeuvre/par_categorie".toList, "http://localhost:8005", "/api/main-oeuvre/par_categorie".toList, "/api/main-oeuvre/par_categorie".toList),
  ("/api/ouvrages/stats".toList, "http://localhost:8005", "/api/ouvrages/stats".toList, "/api/ouvrages/stats".toList),
  ("/api/ouvrages/par_categorie".toList, "http://localhost:8005", "/api/ouvrages/par_categorie".toList, "/api/ouvrages/par_categorie".toList),
  ("/api/ingredients/stats".toList, "http://localhost:8005", "/api/ingredients/stats".toList, "/api/ingredients/stats".toList),
  ("/api/ingredients/par_ouvrage".toList, "http://localhost:8005", "/api/ingredients/par_ouvrage".toList, "/api/ingredients/par_ouvrage".toList),
  ("/api/tenants/".toList, "http://localhost:8001", "/api/tenants/".toList, "/api/tenants/".toList),
  ("/api/auth/".toList, "http://localhost:8002", "/api/auth/".toList, "/api/auth/".toList),
  ("/api/crm/".toList, "http://localhost:8003", "/api/crm/".toList, "/api/crm/".toList),
  ("/api/quotes/".toList, "http://localhost:8004", "/api/quotes/".toList, "/api/quotes/".toList),
  ("/api/invoices/".toList, "http://localhost:8004", "/api/invoices/".toList, "/api/invoices/".toList),
  ("/api/projects/".toList, "http://localhost:8004", "/api/projects/".toList, "/api/projects/".toList),
  ("/api/devis/".toList, "http://localhost:8004", "/api/devis/".toList, "/api/devis/".toList),
  ("/api/factures/".toList, "http://localhost:8004", "/api/factures/".toList, "/api/factures/".toList),
  ("/quotes/".toList, "http://localhost:8004", "/quotes/".toList, "/quotes/".toList),
  ("/invoices/".toList, "http://localhost:8004", "/invoices/".toList, "/invoices/".toList),
  ("/api/library/".toList, "http://localhost:8005", "/api/library/".toList, "/api/library/".toList),
  ("/api/categories/".toList, "http://localhost:8005", "/api/categories/".toList, "/api/categories/".toList),
  ("/api/fournitures/".toList, "http://localhost:8005", "/api/fournitures/".toList, "/api/fournitures/".toList),
  ("/api/main-oeuvre/".toList, "http://localhost:8005", "/api/main-oeuvre/".toList, "/api/main-oeuvre/".toList),
  ("/api/ouvrages/".toList, "http://localhost:8005", "/api/ouvrages/".toList, "/api/ouvrages/".toList),
  ("/api/ingredients/".toList, "http://localhost:8005", "/api/ingredients/".toList, "/api/ingredients/".toList)
]

/-! ### Resolution (`ServiceRouter.resolve_service`) -/

/-- Gateway-visible failures: an `HTTPException(status_code, detail, headers)`
or an uncaught Python `KeyError`. -/
inductive GatewayFailure where
  | http (code : Nat) (detail : String) (challenge : List (String × String))
  | keyError (k : Path)
deriving DecidableEq

/-- The prefix chosen by the scan loop of `resolve_service`: the first
entry of the length-sorted prefix list that `path.startswith`. -/
def matchedPfx (st : RouterState) (path : Path) : Option Path :=
  st.sortedPfx.find? (fun q => q.isPrefixOf path)

/-- The 404 raised by `resolve_service` when nothing matches. -/
def notFoundErr (path : Path) : GatewayFailure :=
  .http 404 ("Route non configurée: " ++ String.mk path) []

/-- Embedding of `ServiceRouter.resolve_service`: exact cache first, then the longest
matching prefix (with a one-shot prefix rewrite when the entry's old and
new prefixes differ, and memoization of the result), else 404. Returns
the outcome together with the router state after the call. -/
def resolveService (st : RouterState) (path : Path) :
    Except GatewayFailure (String × Path) × RouterState :=
  match findA st.routeCache path with
  | some (url, target) => (.ok (url, target), st)
  | none =>
    match matchedPfx st path with
    | some q =>
      match findA st.pfxMap q with
      | some (url, oldPfx, newPfx) =>
        let target := if oldPfx ≠ newPfx then replaceOnce oldPfx newPfx path else path
        (.ok (url, target),
          { st with routeCache := insertA st.routeCache path (url, target) })
      | none => (.error (.keyError q), st)
    | none => (.error (notFoundErr path), st)

/-! ### Python runtime values (for JWT payloads, identities and headers) -/

/-- The Python values flowing through JWT payloads, identity dicts and
header dicts: `None`, strings, integers. -/
inductive PyVal where
  | none
  | str (s : String)
  | int (z : Int)
deriving DecidableEq

/-- Python truthiness of a `PyVal` (`None`, `""` and `0` are falsy). -/
def truthy : PyVal → Bool
  | .none => false
  | .str s => !(s == "")
  | .int z => !(z == 0)

/-- Python `str(v)`. -/
def pyStr : PyVal → String
  | .none => "None"
  | .str s => s
  | .int z => toString z

/-! ### Authentication gate (`src/middleware.py`, `src/app/auth.py`) -/

/-- Embedding of `JWTMiddleware.is_public_route`: allow-list prefixes, then public GET on
tenants, then the two VAT-rate alias paths. -/
def isPublicRoute (path : Path) (method : String) : Bool :=
  PUBLIC_ROUTES.any (fun r => r.isPrefixOf path) ||
  ("/api/tenants/".toList.isPrefixOf path && method == "GET") ||
  (path == "/api/quotes/vat-rates/".toList || path == "/vat-rates/".toList)

/-- Python `s.split()` (no separator): split on whitespace runs, dropping
empty pieces. -/
def splitWs (s : String) : List Path :=
  (s.toList.splitOnP (fun c => c.isWhitespace)).filter (fun w => w ≠ [])

/-- Embedding of `JWTMiddleware.extract_token`: header absent or empty → no token; the
value must split into exactly two whitespace-separated parts whose first
part is case-insensitively `bearer`; then the second part is the token. -/
def extractToken (authorization : Option String) : Option Path :=
  match authorization with
  | Option.none => Option.none
  | some a =>
    if a == "" then Option.none
    else
      match splitWs a with
      | [authType, token] =>
        if authType.map Char.toLower = "bearer".toList then some token else Option.none
      | _ => Option.none

/-- The outcome of `jwt.decode(token, JWT_SECRET_KEY, algorithms=[...])`
(an external library call, supplied as an oracle): a decoded payload, an
`ExpiredSignatureError`, another `InvalidTokenError`, or an unexpected
exception. -/
inductive DecodeOutcome where
  | ok (payload : List (String × PyVal))
  | expiredSignature (msg : String)
  | invalidTokenError (msg : String)
  | unexpectedError (msg : String)
deriving DecidableEq

/-- The identity dict `user_data` built by `validate_token`. -/
abbrev UserData := List (String × PyVal)

/-- Embedding of `JWTMiddleware.validate_token`, with `jwt.decode` abstracted by the
`jwtDecode` oracle: PyJWT decode failures map to 401 with their own
messages; a decoded payload must have truthy `user_id` and `tenant_id` —
the `HTTPException` raised for missing claims (`middleware.py:98`) is
itself raised inside the `try:` block and caught by the
`except Exception` arm (`middleware.py:126`), which replaces it, so that
cause surfaces with the catch-all 401 detail; on success the five-field
`user_data` dict is returned (the `email`, `exp` and `iat` keys are
always present, possibly `None`). -/
def validateToken (jwtDecode : Path → DecodeOutcome) (token : Path) :
    Except GatewayFailure UserData :=
  match jwtDecode token with
  | .ok payload =>
    let userId := getA payload "user_id" .none
    let tenantId := getA payload "tenant_id" .none
    if !truthy userId || !truthy tenantId then
      -- the dedicated missing-claims HTTPException is swallowed by the
      -- except-Exception catch-all, whose detail is surfaced instead
      .error (.http 401 "Erreur de validation du token" [])
    else
      .ok [("user_id", userId), ("tenant_id", tenantId),
           ("email", getA payload "email" .none),
           ("exp", getA payload "exp" .none),
           ("iat", getA payload "iat" .none)]
  | .expiredSignature _ => .error (.http 401 "Token JWT expiré" [])
  | .invalidTokenError _ => .error (.http 401 "Token JWT invalide" [])
  | .unexpectedError _ => .error (.http 401 "Erreur de validation du token" [])

/-- Embedding of `get_current_user` (`src/app/auth.py`): public routes yield no
identity; otherwise a token must be extracted (else 401 with the
`WWW-Authenticate: Bearer` challenge) and validated. -/
def getCurrentUser (path : Path) (method : String) (authorization : Option String)
    (jwtDecode : Path → DecodeOutcome) : Except GatewayFailure (Option UserData) :=
  if isPublicRoute path method then .ok Option.none
  else
    match extractToken authorization with
    | Option.none =>
      .error (.http 401 "Token d'authentification requis" [("WWW-Authenticate", "Bearer")])
    | some token => (validateToken jwtDecode token).map some

/-! ### Forwarding pipeline (`src/app/proxy.py`) -/

/-- The outbound header set of `proxy_request`: start from
`dict(request.headers)`, add the three identity headers when a user is
authenticated (`X-User-Email` from `current_user.get("email", "")`), then
pop `host` and `content-length`. -/
def buildForwardHeaders (inbound : List (String × PyVal)) (currentUser : Option UserData) :
    List (String × PyVal) :=
  let headers := dictOf inbound
  let headers :=
    match currentUser with
    | some u =>
      let h₁ := insertA headers "X-User-ID" (.str (pyStr (getA u "user_id" .none)))
      let h₂ := insertA h₁ "X-Tenant-ID" (.str (pyStr (getA u "tenant_id" .none)))
      insertA h₂ "X-User-Email" (getA u "email" (.str ""))
    | Option.none => headers
  removeA (removeA headers "host") "content-length"

/-- An upstream HTTP response as seen by `proxy_request`. -/
structure UpstreamResponse where
  statusCode : Nat
  headers : List (String × String)
  content : String
deriving DecidableEq

/-- The outcome of the single `client.request(...)` call (an external
effect, supplied as an oracle): a response, an `httpx.TimeoutException`,
another `httpx.RequestError`, or an unexpected exception. -/
inductive UpstreamOutcome where
  | response (r : UpstreamResponse)
  | timeoutExc (msg : String)
  | requestExc (msg : String)
  | otherExc (msg : String)
deriving DecidableEq

/-- The `Response(...)` returned by `proxy_request`. -/
structure ProxyResponse where
  content : String
  statusCode : Nat
  headers : List (String × String)
  mediaType : String
deriving DecidableEq

/-- The response-side handling of `proxy_request`: drop
`content-encoding` / `transfer-encoding` / `connection` response headers
and keep status, body and content type. -/
def buildProxyResponse (r : UpstreamResponse) : ProxyResponse :=
  let responseHeaders := r.headers.foldl
    (fun m kv =>
      if kv.1.toLower = "content-encoding" ∨ kv.1.toLower = "transfer-encoding" ∨
          kv.1.toLower = "connection" then m
      else insertA m kv.1 kv.2) []
  ⟨r.content, r.statusCode, responseHeaders,
    getA (dictOf r.headers) "content-type" "application/json"⟩

/-- The failure mapping of the `try`/`except` around the upstream call:
timeout → 504, transport error → 503, anything else → 500. -/
def forwardOutcome (outcome : UpstreamOutcome) : Except GatewayFailure ProxyResponse :=
  match outcome with
  | .response r => .ok (buildProxyResponse r)
  | .timeoutExc _ => .error (.http 504 "Le service backend a mis trop de temps à répondre" [])
  | .requestExc m => .error (.http 503 ("Service temporairement indisponible: " ++ m) [])
  | .otherExc _ => .error (.http 500 "Erreur interne du gateway" [])

/-- The upstream phase of `proxy_request`, with the transport abstracted
as an oracle indexed by how many calls were already made: the code issues
the call once and maps its outcome; the second component counts the calls
actually issued. -/
def proxyUpstreamPhase (transport : Nat → UpstreamOutcome) :
    Except GatewayFailure ProxyResponse × Nat :=
  let callsBefore := 0
  let outcome := transport callsBefore
  (forwardOutcome outcome, callsBefore + 1)

/-! ### Health aggregation (`ServiceRouter.health_check_all`,
`src/app/endpoints.py`) -/

/-- The outcome of one health probe (`client.get(health_url)` under
`asyncio.gather(..., return_exceptions=True)`): a response with a status
code and elapsed time, an exception inside `_check_service_health`, or an
exception returned by `gather` itself. -/
inductive ProbeOutcome where
  | response (statusCode : Nat) (elapsed : Nat)
  | exc (msg : String)
  | taskExc (msg : String)
deriving DecidableEq

/-- The non-status payload of a per-service health entry. -/
inductive HealthDetail where
  | responseTime (t : Nat)
  | errorMsg (m : String)
deriving DecidableEq

/-- One per-service entry of the health report (`url` is absent in the
`gather`-returned-exception branch, which builds no `url` field). -/
structure ServiceHealth where
  hstatus : String
  url : Option String
  detail : HealthDetail
deriving DecidableEq

/-- Embedding of `ServiceRouter._check_service_health`: HTTP 200 → healthy with the
response time; any other code → unhealthy; an exception → unreachable. -/
def checkServiceHealth (healthUrl : String) (o : ProbeOutcome) : ServiceHealth :=
  match o with
  | .response code t =>
    if code = 200 then ⟨"healthy", some healthUrl, .responseTime t⟩
    else ⟨"unhealthy", some healthUrl, .errorMsg ("HTTP " ++ toString code)⟩
  | .exc m => ⟨"unreachable", some healthUrl, .errorMsg m⟩
  | .taskExc m => ⟨"unreachable", some healthUrl, .errorMsg m⟩

/-- The aggregate health report of `health_check_all`. -/
structure HealthReport where
  gatewayStatus : String
  version : String
  overall : String
  services : List (String × ServiceHealth)
deriving DecidableEq

/-- The per-service accumulation step of `health_check_all`: a
`gather`-returned exception yields an unreachable entry and clears the
overall flag; otherwise the probe's entry is recorded and any non-healthy
status clears the flag. -/
def healthStep (probe : String → ProbeOutcome)
    (acc : List (String × ServiceHealth) × Bool) (e : String × ServiceConfig) :
    List (String × ServiceHealth) × Bool :=
  match probe e.1 with
  | .taskExc m => (acc.1 ++ [(e.1, ⟨"unreachable", Option.none, .errorMsg m⟩)], false)
  | o =>
    let r := checkServiceHealth (e.2.url ++ String.mk e.2.health) o
    (acc.1 ++ [(e.1, r)], if r.hstatus ≠ "healthy" then false else acc.2)

/-- Embedding of `ServiceRouter.health_check_all`, with the concurrent probes
abstracted as a per-service outcome oracle (the join barrier of
`asyncio.gather` makes every outcome available before aggregation):
overall status is `healthy` only if the flag survived every service. -/
def healthCheckAll (probe : String → ProbeOutcome) : HealthReport :=
  let folded := SERVICES.foldl (healthStep probe) ([], true)
  ⟨"healthy", "1.0.0", if folded.2 then "healthy" else "degraded", folded.1⟩

/-- The `GET /health/` endpoint of `src/app/endpoints.py`: HTTP 200 when
the aggregate report is healthy, 503 otherwise. -/
def healthEndpointStatus (probe : String → ProbeOutcome) : Nat :=
  if (healthCheckAll probe).overall = "healthy" then 200 else 503

instance {ε α : Type} [DecidableEq ε] [DecidableEq α] : DecidableEq (Except ε α) :=
  fun a b =>
    match a, b with
    | .error e, .error e' =>
      match decEq e e' with
      | isTrue h => isTrue (h ▸ rfl)
      | isFalse h => isFalse (fun hh => h (Except.error.injEq .. ▸ hh))
    | .ok v, .ok v' =>
      match decEq v v' with
      | isTrue h => isTrue (h ▸ rfl)
      | isFalse h => isFalse (fun hh => h (Except.ok.injEq .. ▸ hh))
    | .error _, .ok _ => isFalse (fun hh => Except.noConfusion hh)
    | .ok _, .error _ => isFalse (fun hh => Except.noConfusion hh)

/-- The key list of an association-list dict. -/
def keys {κ α : Type} (m : List (κ × α)) : List κ := m.map Prod.fst

/-- Decidable per-entry check used for the exact-resolution claim: a legacy
entry whose service exists must sit in the given exact cache with that
service's URL and its own target path. -/
def exactCached (cache : List (Path × String × Path)) (e : Path × String × Path) : Bool :=
  match findA SERVICES e.2.1 with
  | some cfg => decide (findA cache e.1 = some (cfg.url, e.2.2))
  | Option.none => true

/-- A probe outcome that `_check_service_health` reports as healthy:
an HTTP 200 response (anything else is unhealthy or unreachable). -/
def probeOk : ProbeOutcome → Bool
  | .response code _ => code == 200
  | .exc _ => false
  | .taskExc _ => false

/-! ### Association-list dictionary lemmas -/

variable {κ α : Type} [DecidableEq κ]

theorem findA_insertA (m : List (κ × α)) (k k' : κ) (v : α) :
    findA (insertA m k v) k' = if k = k' then some v else findA m k' := by
  induction m with
  | nil => simp [insertA, findA]
  | cons e rest ih =>
    obtain ⟨ek, ev⟩ := e
    by_cases h₁ : ek = k
    · subst h₁
      by_cases h₂ : ek = k' <;> simp [insertA, findA, h₂]
    · by_cases h₂ : ek = k'
      · subst h₂
        have : k ≠ ek := fun h => h₁ h.symm
        simp [insertA, findA, h₁, this]
      · simp [insertA, findA, h₁, h₂, ih]

theorem findA_removeA_ne (m : List (κ × α)) (k k' : κ) (h : k ≠ k') :
    findA (removeA m k) k' = findA m k' := by
  induction m with
  | nil => simp [removeA]
  | cons e rest ih =>
    obtain ⟨ek, ev⟩ := e
    by_cases h₁ : ek = k
    · subst h₁
      have : ek ≠ k' := h
      simp [removeA, findA, this]
    · simp [removeA, findA, h₁]
      by_cases h₂ : ek = k' <;> simp [h₂, ih]

theorem keys_insertA (m : List (κ × α)) (k : κ) (v : α) :
    keys (insertA m k v) = if k ∈ keys m then keys m else keys m ++ [k] := by
  induction m with
  | nil => simp [insertA, keys]
  | cons e rest ih =>
    obtain ⟨ek, ev⟩ := e
    by_cases h₁ : ek = k
    · subst h₁
      simp [insertA, keys]
    · have hne : ¬(k = ek) := fun h => h₁ h.symm
      simp only [insertA, if_neg h₁, keys, List.map_cons]
      rw [show List.map Prod.fst (insertA rest k v) = keys (insertA rest k v) from rfl, ih]
      by_cases h₂ : k ∈ List.map Prod.fst rest <;> simp [keys, List.mem_cons, h₂, hne]

theorem keysNodup_insertA (m : List (κ × α)) (k : κ) (v : α)
    (h : (keys m).Nodup) : (keys (insertA m k v)).Nodup := by
  rw [keys_insertA]
  by_cases hk : k ∈ keys m
  · simpa [hk] using h
  · simp only [hk, if_false]
    simpa [List.nodup_append] using ⟨h, hk⟩

theorem findA_eq_none_iff (m : List (κ × α)) (k : κ) :
    findA m k = none ↔ k ∉ keys m := by
  induction m with
  | nil => simp [findA, keys]
  | cons e rest ih =>
    obtain ⟨ek, ev⟩ := e
    by_cases h₁ : ek = k
    · subst h₁; simp [findA, keys]
    · have : ¬(k = ek) := fun h => h₁ h.symm
      simp [findA, keys, h₁, this, ih]

theorem findA_some_mem_keys (m : List (κ × α)) (k : κ) (v : α)
    (h : findA m k = some v) : k ∈ keys m := by
  by_contra hk
  rw [← findA_eq_none_iff] at hk
  rw [hk] at h
  cases h

theorem findA_removeA_self (m : List (κ × α)) (k : κ)
    (h : (keys m).Nodup) : findA (removeA m k) k = none := by
  induction m with
  | nil => simp [removeA, findA]
  | cons e rest ih =>
    obtain ⟨ek, ev⟩ := e
    by_cases h₁ : ek = k
    · subst h₁
      rw [keys] at h
      simp only [List.map_cons, List.nodup_cons] at h
      simp only [removeA, if_pos rfl]
      rw [findA_eq_none_iff]
      exact h.1
    · rw [keys] at h
      simp only [List.map_cons, List.nodup_cons] at h
      simp [removeA, findA, h₁, ih h.2]

omit [DecidableEq κ] in
theorem keysNodup_foldl {β : Type} (f : List (κ × α) → β → List (κ × α))
    (hf : ∀ m b, (keys m).Nodup → (keys (f m b)).Nodup) :
    ∀ (l : List β) (m : List (κ × α)), (keys m).Nodup → (keys (l.foldl f m)).Nodup := by
  intro l
  induction l with
  | nil => intro m hm; simpa using hm
  | cons b t ih => intro m hm; simpa using ih (f m b) (hf m b hm)

theorem keysNodup_dictOf (l : List (κ × α)) : (keys (dictOf l)).Nodup := by
  have := keysNodup_foldl (fun m e => insertA m e.1 e.2)
    (fun m e hm => keysNodup_insertA m e.1 e.2 hm) l []
  simpa [dictOf, keys] using this (by simp [keys])

/-! ### Longest-prefix selection lemmas -/

theorem isPrefixOf_true_iff {l₁ l₂ : Path} : l₁.isPrefixOf l₂ = true ↔ l₁ <+: l₂ :=
  List.isPrefixOf_iff_prefix

theorem prefixes_eq_of_length {path p q : Path} (hp : p <+: path) (hq : q <+: path)
    (h : p.length = q.length) : p = q :=
  (List.prefix_of_prefix_length_le hp hq h.le).eq_of_length h

/-- In a list of prefixes sorted by length (longest first) and free of
duplicates, if `p` is a member matching `path` and no member matching
`path` is longer than `p`, the linear scan finds exactly `p`. -/
theorem find?_longest {path : Path} (p : Path) :
    ∀ (l : List Path), l.Pairwise (fun a b => b.length ≤ a.length) → l.Nodup →
    p ∈ l → p.isPrefixOf path = true →
    (∀ q ∈ l, q.isPrefixOf path = true → q.length ≤ p.length) →
    l.find? (fun q => q.isPrefixOf path) = some p := by
  intro l
  induction l with
  | nil => intro _ _ hmem; cases hmem
  | cons h t ih =>
    intro hpair hnd hmem hp hlong
    rcases List.mem_cons.mp hmem with heq | hmemt
    · subst heq
      exact List.find?_cons_of_pos _ hp
    · by_cases hh : h.isPrefixOf path = true
      · exfalso
        have h₁ : h.length ≤ p.length := hlong h (List.mem_cons_self h t) hh
        have h₂ : p.length ≤ h.length := (List.pairwise_cons.mp hpair).1 p hmemt
        have : h = p := prefixes_eq_of_length (isPrefixOf_true_iff.mp hh)
          (isPrefixOf_true_iff.mp hp) (Nat.le_antisymm h₁ h₂)
        exact (List.nodup_cons.mp hnd).1 (this ▸ hmemt)
      · have hstep : List.find? (fun q => q.isPrefixOf path) (h :: t) =
            List.find? (fun q => q.isPrefixOf path) t := by
          simp only [List.find?]
          rw [Bool.of_not_eq_true hh]
        rw [hstep]
        exact ih (List.pairwise_cons.mp hpair).2 (List.nodup_cons.mp hnd).2 hmemt hp
          (fun q hq hqp => hlong q (List.mem_cons_of_mem h hq) hqp)

/-! ### Invariants of the compiled route table -/

theorem lenDesc_trans :
    ∀ a b c : Path, lenDesc a b = true → lenDesc b c = true → lenDesc a c = true := by
  intro a b c hab hbc
  simp only [lenDesc, Nat.ble_eq] at hab hbc ⊢
  omega

theorem lenDesc_total : ∀ a b : Path, (lenDesc a b || lenDesc b a) = true := by
  intro a b
  simp only [lenDesc, Nat.ble_eq, Bool.or_eq_true]
  omega

theorem sortedPfx_pairwise :
    buildSortedPfx.Pairwise (fun a b => b.length ≤ a.length) := by
  have h := @List.sorted_mergeSort Path lenDesc lenDesc_trans lenDesc_total
    (buildPfxMap.map Prod.fst)
  exact h.imp (fun hab => by simpa only [lenDesc, Nat.ble_eq] using hab)

theorem mem_sortedPfx_iff {q : Path} :
    q ∈ buildSortedPfx ↔ q ∈ keys buildPfxMap :=
  (List.mergeSort_perm (buildPfxMap.map Prod.fst) lenDesc).mem_iff

theorem pfxMap_keysNodup : (keys buildPfxMap).Nodup := by
  have h₁ : (keys (([] : List (Path × String × Path × Path)))).Nodup := by simp [keys]
  have h₂ := keysNodup_foldl pfxLegacyStep
    (fun m e hm => by
      cases hcfg : findA SERVICES e.2.1 with
      | some cfg => simpa [pfxLegacyStep, hcfg] using keysNodup_insertA m _ _ hm
      | none => simpa [pfxLegacyStep, hcfg] using hm)
    legacyDict [] h₁
  have h₃ := keysNodup_foldl pfxServiceStep
    (fun m e hm =>
      keysNodup_foldl (fun m' r => insertA m' r (e.2.url, r, r))
        (fun m' r hm' => keysNodup_insertA m' r _ hm') e.2.routes m hm)
    SERVICES _ h₂
  exact h₃

theorem sortedPfx_nodup : buildSortedPfx.Nodup := by
  have h : (buildPfxMap.map Prod.fst).Nodup := pfxMap_keysNodup
  exact ((List.mergeSort_perm (buildPfxMap.map Prod.fst) lenDesc).nodup_iff).mpr h

/-! ### Resolution lemmas -/

/-- An exact-cache hit returns the cached pair and leaves the router
state untouched. -/
theorem resolve_exact_hit (st : RouterState) (path : Path) (v : String × Path)
    (h : findA st.routeCache path = some v) : resolveService st path = (.ok v, st) := by
  obtain ⟨u, t⟩ := v
  simp [resolveService, h]

/-- Unfolding of the freshly compiled router state into its three
components. -/
theorem routerState₀_def :
    routerState₀ = RouterState.mk buildRouteCache buildPfxMap buildSortedPfx := rfl

/-- The exact-cache component of the compiled router state. -/
theorem router_routeCache_def : routerState₀.routeCache = buildRouteCache := by
  rw [routerState₀_def]

/-- The prefix-map component of the compiled router state. -/
theorem router_pfxMap_def : routerState₀.pfxMap = buildPfxMap := by
  rw [routerState₀_def]

/-- The sorted-prefix component of the compiled router state. -/
theorem router_sortedPfx_def : routerState₀.sortedPfx = buildSortedPfx := by
  rw [routerState₀_def]

/-- The compiled router state's sorted prefix list is sorted by length,
longest first. -/
theorem router_pairwise :
    routerState₀.sortedPfx.Pairwise (fun a b => b.length ≤ a.length) := by
  rw [router_sortedPfx_def]
  exact sortedPfx_pairwise

/-- The compiled router state's sorted prefix list has no duplicates. -/
theorem router_nodup : routerState₀.sortedPfx.Nodup := by
  rw [router_sortedPfx_def]
  exact sortedPfx_nodup

/-- The sorted prefix list of the freshly compiled router state holds the
same keys as its prefix map. -/
theorem router_sortedKeys :
    ∀ q : Path, q ∈ routerState₀.sortedPfx ↔ q ∈ keys routerState₀.pfxMap := by
  intro q
  rw [router_sortedPfx_def, router_pfxMap_def]
  exact mem_sortedPfx_iff

/-- When the exact cache misses and `p` is the longest registered prefix
matching `path` (no registered prefix-map key matching `path` is
longer), the scan selects `p` and the result is computed from `p`'s
prefix-map entry. Stated over any router state whose sorted prefix list
is length-sorted, duplicate-free, and carries the prefix-map keys. -/
theorem resolve_via_longest (st : RouterState) (path p : Path) (e : String × Path × Path)
    (hpair : st.sortedPfx.Pairwise (fun a b => b.length ≤ a.length))
    (hnd : st.sortedPfx.Nodup)
    (hkeys : ∀ q : Path, q ∈ st.sortedPfx ↔ q ∈ keys st.pfxMap)
    (hmiss : findA st.routeCache path = none)
    (hfind : findA st.pfxMap p = some e)
    (hp : p.isPrefixOf path = true)
    (hlong : ∀ q ∈ keys st.pfxMap,
      q.isPrefixOf path = true → q.length ≤ p.length) :
    matchedPfx st path = some p ∧
    (resolveService st path).fst =
      .ok (e.1, if e.2.1 ≠ e.2.2 then replaceOnce e.2.1 e.2.2 path else path) := by
  have hmem : p ∈ st.sortedPfx := (hkeys p).mpr (findA_some_mem_keys _ _ _ hfind)
  have hlong' : ∀ q ∈ st.sortedPfx, q.isPrefixOf path = true → q.length ≤ p.length :=
    fun q hq => hlong q ((hkeys q).mp hq)
  have hfound : matchedPfx st path = some p :=
    find?_longest p st.sortedPfx hpair hnd hmem hp hlong'
  refine ⟨hfound, ?_⟩
  obtain ⟨u, oldPfx, newPfx⟩ := e
  simp [resolveService, hmiss, hfound, hfind]

/-- A path matched by no registered prefix-map key is matched by no entry
of the (permuted) sorted prefix list either. -/
theorem matchedPfx_none_of_keys (st : RouterState) (path : Path)
    (hkeys : ∀ q : Path, q ∈ st.sortedPfx ↔ q ∈ keys st.pfxMap)
    (h : ∀ q ∈ keys st.pfxMap, q.isPrefixOf path = false) :
    matchedPfx st path = none :=
  List.find?_eq_none.mpr fun q hq => by
    rw [h q ((hkeys q).mp hq)]
    exact Bool.false_ne_true

/-! ### Concrete facts about the compiled route table
(the two table constructions are evaluated once each, against their
literal spellings; every other concrete fact is then read off the cheap
literal tables) -/

set_option maxRecDepth 1000000 in
set_option maxHeartbeats 4000000 in
/-- The `LEGACY_ROUTE_MAPPING` dict evaluates to its literal spelling. -/
theorem legacyDict_eq : legacyDict = legacyDictLit := by
  decide

set_option maxRecDepth 1000000 in
set_option maxHeartbeats 4000000 in
/-- The `_compile_route_cache` exact cache evaluates to its literal
spelling. -/
theorem buildRouteCache_eq : buildRouteCache = routeCacheLit := by
  unfold buildRouteCache
  rw [legacyDict_eq]
  decide

set_option maxRecDepth 1000000 in
set_option maxHeartbeats 4000000 in
/-- Loop 2 of `_compile_route_cache` evaluates to the literal legacy half
of the prefix map. -/
theorem pfxM1_eq : legacyDict.foldl pfxLegacyStep [] = pfxM1Lit := by
  rw [legacyDict_eq]
  decide

set_option maxRecDepth 1000000 in
set_option maxHeartbeats 4000000 in
/-- The `_compile_route_cache` prefix map evaluates to its literal
spelling. -/
theorem buildPfxMap_eq : buildPfxMap = pfxMapLit := by
  unfold buildPfxMap
  rw [pfxM1_eq]
  decide

set_option maxRecDepth 100000 in
/-- Concrete exact-cache evaluations: the legacy hit for `/api/devis/`
and the misses for the three prefix-resolved or unknown paths. -/
theorem cacheFacts :
    findA routerState₀.routeCache "/api/devis/".toList =
      some ("http://localhost:8004", "/api/quotes/".toList) ∧
    findA routerState₀.routeCache ("/api/projects/".toList ++ "x".toList) = none ∧
    findA routerState₀.routeCache "/api/auth/tenants/abc".toList = none ∧
    findA routerState₀.routeCache "/nonexistent".toList = none := by
  have hc : routerState₀.routeCache = routeCacheLit :=
    router_routeCache_def.trans buildRouteCache_eq
  refine ⟨?_, ?_, ?_, ?_⟩ <;> rw [hc] <;> decide

set_option maxRecDepth 100000 in
/-- Concrete prefix-map entries: every service route is registered with
the identity transform, and the two overlapping `/api/auth...` entries. -/
theorem pfxEntryFacts :
    (∀ e ∈ SERVICES, ∀ r ∈ e.2.routes,
      findA routerState₀.pfxMap r = some (e.2.url, r, r)) ∧
    findA routerState₀.pfxMap "/api/auth/".toList =
      some ("http://localhost:8002", "/api/auth/".toList, "/api/auth/".toList) ∧
    findA routerState₀.pfxMap "/api/auth/tenants".toList =
      some ("http://localhost:8001", "/api/auth/tenants".toList, "/api/tenants".toList) := by
  have hp : routerState₀.pfxMap = pfxMapLit := router_pfxMap_def.trans buildPfxMap_eq
  refine ⟨?_, ?_, ?_⟩ <;> rw [hp] <;> decide

set_option maxRecDepth 100000 in
/-- Concrete longest-match bounds over the registered prefix-map keys:
nothing longer than `/api/projects/` matches `/api/projects/x`, nothing
longer than `/api/auth/tenants` matches `/api/auth/tenants/abc`, and
nothing at all matches `/nonexistent`. -/
theorem pfxScanFacts :
    (∀ q ∈ keys routerState₀.pfxMap,
      q.isPrefixOf ("/api/projects/".toList ++ "x".toList) = true →
      q.length ≤ ("/api/projects/".toList).length) ∧
    (∀ q ∈ keys routerState₀.pfxMap,
      q.isPrefixOf "/api/auth/tenants/abc".toList = true →
      q.length ≤ ("/api/auth/tenants".toList).length) ∧
    (∀ q ∈ keys routerState₀.pfxMap,
      q.isPrefixOf "/nonexistent".toList = false) := by
  have hp : routerState₀.pfxMap = pfxMapLit := router_pfxMap_def.trans buildPfxMap_eq
  refine ⟨?_, ?_, ?_⟩ <;> rw [hp] <;> decide

set_option maxRecDepth 1000000 in
set_option maxHeartbeats 4000000 in
/-- Concrete exact-cache contents for every legacy entry whose service
exists: the entry's own URL and target sit in the literal exact cache. -/
theorem legacyCacheFacts : legacyList.all (exactCached routeCacheLit) = true := by
  decide

/-! ### Claim theorems: routing -/

/-- C1 (amended): for every configured service, every owned route prefix
`r` and every suffix `s`, provided the concatenated path has no
exact-cache entry and no registered prefix longer than `r` matches it,
`resolve_service` returns that service's URL with the path unchanged.
(As originally stated the claim is false: exact legacy entries and longer
legacy prefixes rewrite the path — see the counterexample.) -/
theorem route_identity_resolution :
    ∀ e ∈ SERVICES, ∀ r ∈ e.2.routes, ∀ s : Path,
    findA routerState₀.routeCache (r ++ s) = none →
    (∀ q ∈ keys routerState₀.pfxMap, q.isPrefixOf (r ++ s) = true → q.length ≤ r.length) →
    (resolveService routerState₀ (r ++ s)).fst = .ok (e.2.url, r ++ s) := by
  intro e he r hr s hmiss hlong
  have hfind : findA routerState₀.pfxMap r = some (e.2.url, r, r) :=
    pfxEntryFacts.1 e he r hr
  have hp : r.isPrefixOf (r ++ s) = true :=
    isPrefixOf_true_iff.mpr (List.prefix_append r s)
  have h := (resolve_via_longest routerState₀ (r ++ s) r (e.2.url, r, r)
    router_pairwise router_nodup router_sortedKeys hmiss hfind hp hlong).2
  simpa using h

/-- C1 counterexample: `/api/devis/` is an owned route prefix of the
`documents` service, yet `resolve_service` on `/api/devis/` + the empty
suffix returns the rewritten path `/api/quotes/`, not the inbound path:
the identity-transform claim fails on legacy-mapped service prefixes. -/
theorem route_identity_cex :
    "/api/devis/".toList ∈ ((findA SERVICES "documents").map ServiceConfig.routes).getD [] ∧
    ((findA SERVICES "documents").map ServiceConfig.url).getD "" = "http://localhost:8004" ∧
    (resolveService routerState₀ ("/api/devis/".toList ++ "".toList)).fst =
      .ok ("http://localhost:8004", "/api/quotes/".toList) ∧
    ¬ ("/api/quotes/".toList = "/api/devis/".toList ++ "".toList) := by
  refine ⟨by decide, by decide, ?_, by decide⟩
  have h := resolve_exact_hit routerState₀ "/api/devis/".toList
    ("http://localhost:8004", "/api/quotes/".toList) cacheFacts.1
  exact congrArg Prod.fst h

/-- C1 witness: the `documents` route `/api/projects/` with suffix `x`
satisfies both hypotheses and resolves to the documents URL with the
path unchanged. -/
theorem route_identity_witness :
    findA routerState₀.routeCache ("/api/projects/".toList ++ "x".toList) = none ∧
    (∀ q ∈ keys routerState₀.pfxMap,
      q.isPrefixOf ("/api/projects/".toList ++ "x".toList) = true →
      q.length ≤ ("/api/projects/".toList).length) ∧
    (resolveService routerState₀ ("/api/projects/".toList ++ "x".toList)).fst =
      .ok ("http://localhost:8004", "/api/projects/".toList ++ "x".toList) :=
  ⟨cacheFacts.2.1, pfxScanFacts.1,
    route_identity_resolution
      ("documents", ⟨"http://localhost:8004", "/health/".toList,
        ["/api/quotes/".toList, "/api/invoices/".toList, "/api/projects/".toList,
         "/api/devis/".toList, "/api/factures/".toList, "/quotes/".toList,
         "/invoices/".toList]⟩)
      (by decide) "/api/projects/".toList (by decide) "x".toList
      cacheFacts.2.1 pfxScanFacts.1⟩

/-- C2: when the exact cache misses, for two registered prefixes with
`p₁` a proper prefix of `p₂` and `p₂` the longest registered prefix
matching the path, the scan selects `p₂` — never `p₁` — and the result
is computed from `p₂`'s mapping. -/
theorem longest_prefix_wins :
    ∀ (path p₁ p₂ : Path) (e₁ e₂ : String × Path × Path),
    findA routerState₀.routeCache path = none →
    findA routerState₀.pfxMap p₁ = some e₁ →
    findA routerState₀.pfxMap p₂ = some e₂ →
    p₁ <+: p₂ → p₁ ≠ p₂ → p₂.isPrefixOf path = true →
    (∀ q ∈ keys routerState₀.pfxMap, q.isPrefixOf path = true → q.length ≤ p₂.length) →
    matchedPfx routerState₀ path = some p₂ ∧
    ¬ matchedPfx routerState₀ path = some p₁ ∧
    (resolveService routerState₀ path).fst =
      .ok (e₂.1, if e₂.2.1 ≠ e₂.2.2 then replaceOnce e₂.2.1 e₂.2.2 path else path) := by
  intro path p₁ p₂ e₁ e₂ hmiss h₁ h₂ hsub hne hp₂ hlong
  obtain ⟨hm, hr⟩ := resolve_via_longest routerState₀ path p₂ e₂
    router_pairwise router_nodup router_sortedKeys hmiss h₂ hp₂ hlong
  refine ⟨hm, ?_, hr⟩
  rw [hm]
  exact fun hc => hne (Option.some.inj hc).symm

/-- C2 witness: for the path `/api/auth/tenants/abc`, the registered
prefixes `/api/auth/` (auth service) and `/api/auth/tenants` (legacy
tenant rewrite) both match, the scan selects the longer one, and the
result is the tenant mapping. -/
theorem longest_prefix_wins_witness :
    findA routerState₀.routeCache "/api/auth/tenants/abc".toList = none ∧
    findA routerState₀.pfxMap "/api/auth/".toList =
      some ("http://localhost:8002", "/api/auth/".toList, "/api/auth/".toList) ∧
    findA routerState₀.pfxMap "/api/auth/tenants".toList =
      some ("http://localhost:8001", "/api/auth/tenants".toList, "/api/tenants".toList) ∧
    matchedPfx routerState₀ "/api/auth/tenants/abc".toList = some "/api/auth/tenants".toList ∧
    ¬ matchedPfx routerState₀ "/api/auth/tenants/abc".toList = some "/api/auth/".toList ∧
    (resolveService routerState₀ "/api/auth/tenants/abc".toList).fst =
      .ok ("http://localhost:8001",
        if ("/api/auth/tenants".toList : Path) ≠ "/api/tenants".toList then
          replaceOnce "/api/auth/tenants".toList "/api/tenants".toList
            "/api/auth/tenants/abc".toList
        else "/api/auth/tenants/abc".toList) := by
  obtain ⟨hm, hnm, hr⟩ := longest_prefix_wins "/api/auth/tenants/abc".toList
    "/api/auth/".toList "/api/auth/tenants".toList
    ("http://localhost:8002", "/api/auth/".toList, "/api/auth/".toList)
    ("http://localhost:8001", "/api/auth/tenants".toList, "/api/tenants".toList)
    cacheFacts.2.2.1 pfxEntryFacts.2.1 pfxEntryFacts.2.2
    (isPrefixOf_true_iff.mp (by decide)) (by decide) (by decide)
    pfxScanFacts.2.1
  exact ⟨cacheFacts.2.2.1, pfxEntryFacts.2.1, pfxEntryFacts.2.2,
    hm, hnm, hr⟩

set_option maxRecDepth 100000 in
/-- C3: every legacy mapping entry whose service exists resolves, via the
exact-match cache, to exactly that service's URL and the entry's target
path — with the router state untouched, so no prefix entry is consulted. -/
theorem legacy_exact_resolution :
    ∀ e ∈ legacyList, ∀ cfg, findA SERVICES e.2.1 = some cfg →
    resolveService routerState₀ e.1 = (.ok (cfg.url, e.2.2), routerState₀) := by
  intro e he cfg hcfg
  have hall : exactCached routeCacheLit e = true :=
    (List.all_eq_true).mp legacyCacheFacts e he
  unfold exactCached at hall
  rw [hcfg] at hall
  have hlit : findA routeCacheLit e.1 = some (cfg.url, e.2.2) := of_decide_eq_true hall
  have hcache : findA routerState₀.routeCache e.1 = some (cfg.url, e.2.2) := by
    have hc : routerState₀.routeCache = routeCacheLit :=
      router_routeCache_def.trans buildRouteCache_eq
    rw [hc]
    exact hlit
  exact resolve_exact_hit routerState₀ e.1 _ hcache

/-- C3 witness: the legacy entry `/api/devis/stats/` (documents service)
resolves exactly to the documents URL and `/api/quotes/stats/`. -/
theorem legacy_exact_witness :
    ("/api/devis/stats/".toList, "documents", "/api/quotes/stats/".toList) ∈ legacyList ∧
    findA SERVICES "documents" =
      some ⟨"http://localhost:8004", "/health/".toList,
        ["/api/quotes/".toList, "/api/invoices/".toList, "/api/projects/".toList,
         "/api/devis/".toList, "/api/factures/".toList, "/quotes/".toList,
         "/invoices/".toList]⟩ ∧
    resolveService routerState₀ "/api/devis/stats/".toList =
      (.ok ("http://localhost:8004", "/api/quotes/stats/".toList), routerState₀) :=
  ⟨by decide, by decide,
    legacy_exact_resolution ("/api/devis/stats/".toList, "documents",
      "/api/quotes/stats/".toList) (by decide)
      ⟨"http://localhost:8004", "/health/".toList,
        ["/api/quotes/".toList, "/api/invoices/".toList, "/api/projects/".toList,
         "/api/devis/".toList, "/api/factures/".toList, "/quotes/".toList,
         "/invoices/".toList]⟩ (by decide)⟩

/-- C4: a path with no exact-cache entry and no matching registered
prefix makes `resolve_service` raise the 404 `HTTPException`, and the
router state — exact cache (memoization included), prefix map and sorted
prefix list — is returned unchanged. -/
theorem unknown_path_404 :
    ∀ (st : RouterState) (path : Path),
    findA st.routeCache path = none →
    matchedPfx st path = none →
    resolveService st path =
      (.error (.http 404 ("Route non configurée: " ++ String.mk path) []), st) := by
  intro st path h₁ h₂
  simp [resolveService, h₁, h₂, notFoundErr]

/-- C4 witness: `/nonexistent` misses the exact cache and every prefix,
and the failed call leaves the freshly compiled router state unchanged. -/
theorem unknown_path_404_witness :
    findA routerState₀.routeCache "/nonexistent".toList = none ∧
    matchedPfx routerState₀ "/nonexistent".toList = none ∧
    resolveService routerState₀ "/nonexistent".toList =
      (.error (.http 404 ("Route non configurée: " ++ String.mk "/nonexistent".toList) []),
        routerState₀) :=
  ⟨cacheFacts.2.2.2, matchedPfx_none_of_keys routerState₀ "/nonexistent".toList router_sortedKeys pfxScanFacts.2.2,
    unknown_path_404 routerState₀ "/nonexistent".toList
      cacheFacts.2.2.2 (matchedPfx_none_of_keys routerState₀ "/nonexistent".toList router_sortedKeys pfxScanFacts.2.2)⟩

/-! ### Claim theorems: authentication -/

/-- C5 (amended): each of the five authentication failure causes —
missing token, malformed header, expired signature, invalid signature,
decoded payload lacking mandatory claims — produces HTTP 401. Expired
and invalid signatures carry their own messages, but missing token and
malformed header share one message, and the missing-claims cause
surfaces the generic catch-all message (its dedicated `HTTPException` is
swallowed by the `except Exception` arm of `validate_token`), identical
to the unexpected-error message — so the five causes carry only four
distinct messages. -/
theorem auth_failure_taxonomy :
    ∀ (jd : Path → DecodeOutcome) (path : Path) (method : String),
    isPublicRoute path method = false →
    (∀ a, extractToken a = Option.none →
      getCurrentUser path method a jd =
        .error (.http 401 "Token d'authentification requis" [("WWW-Authenticate", "Bearer")])) ∧
    (∀ a tok m, extractToken a = some tok → jd tok = .expiredSignature m →
      getCurrentUser path method a jd = .error (.http 401 "Token JWT expiré" [])) ∧
    (∀ a tok m, extractToken a = some tok → jd tok = .invalidTokenError m →
      getCurrentUser path method a jd = .error (.http 401 "Token JWT invalide" [])) ∧
    (∀ a tok payload, extractToken a = some tok → jd tok = .ok payload →
      (truthy (getA payload "user_id" .none) = false ∨
        truthy (getA payload "tenant_id" .none) = false) →
      getCurrentUser path method a jd =
        .error (.http 401 "Erreur de validation du token" [])) ∧
    (∀ a tok m, extractToken a = some tok → jd tok = .unexpectedError m →
      getCurrentUser path method a jd =
        .error (.http 401 "Erreur de validation du token" [])) ∧
    ("Token d'authentification requis" ≠ "Token JWT expiré" ∧
      "Token d'authentification requis" ≠ "Token JWT invalide" ∧
      "Token d'authentification requis" ≠ "Erreur de validation du token" ∧
      "Token JWT expiré" ≠ "Token JWT invalide" ∧
      "Token JWT expiré" ≠ "Erreur de validation du token" ∧
      "Token JWT invalide" ≠ "Erreur de validation du token") := by
  intro jd path method hpub
  refine ⟨?_, ?_, ?_, ?_, ?_, by decide⟩
  · intro a ha
    simp [getCurrentUser, hpub, ha]
  · intro a tok m ha hjd
    simp [getCurrentUser, hpub, ha, validateToken, hjd, Except.map]
  · intro a tok m ha hjd
    simp [getCurrentUser, hpub, ha, validateToken, hjd, Except.map]
  · intro a tok payload ha hjd hbad
    have hcond : (!truthy (getA payload "user_id" .none) ||
        !truthy (getA payload "tenant_id" .none)) = true := by
      rcases hbad with h | h <;> simp [h]
    simp [getCurrentUser, hpub, ha, validateToken, hjd, hcond, Except.map]
  · intro a tok m ha hjd
    simp [getCurrentUser, hpub, ha, validateToken, hjd, Except.map]

/-- C5 counterexample: on a protected path, a missing Authorization
header and a malformed one (`Basic` scheme) both fail with the very same
401 message, so the five causes do not carry five distinct messages. -/
theorem auth_failure_taxonomy_cex :
    getCurrentUser "/api/crm/".toList "POST" Option.none (fun _ => .invalidTokenError "x") =
      .error (.http 401 "Token d'authentification requis" [("WWW-Authenticate", "Bearer")]) ∧
    getCurrentUser "/api/crm/".toList "POST" (some "Basic abc")
        (fun _ => .invalidTokenError "x") =
      .error (.http 401 "Token d'authentification requis" [("WWW-Authenticate", "Bearer")]) := by
  decide

/-- C5 witness: on the protected path `/api/crm/` each failure cause is
exercised at a concrete input and yields its 401. -/
theorem auth_failure_taxonomy_witness :
    isPublicRoute "/api/crm/".toList "POST" = false ∧
    extractToken Option.none = Option.none ∧
    extractToken (some "Basic abc") = Option.none ∧
    extractToken (some "Bearer abc") = some "abc".toList ∧
    getCurrentUser "/api/crm/".toList "POST" Option.none (fun _ => .expiredSignature "e") =
      .error (.http 401 "Token d'authentification requis" [("WWW-Authenticate", "Bearer")]) ∧
    getCurrentUser "/api/crm/".toList "POST" (some "Bearer abc")
        (fun _ => .expiredSignature "e") =
      .error (.http 401 "Token JWT expiré" []) ∧
    getCurrentUser "/api/crm/".toList "POST" (some "Bearer abc")
        (fun _ => .invalidTokenError "i") =
      .error (.http 401 "Token JWT invalide" []) ∧
    getCurrentUser "/api/crm/".toList "POST" (some "Bearer abc")
        (fun _ => .ok [("user_id", PyVal.str "u")]) =
      .error (.http 401 "Erreur de validation du token" []) ∧
    getCurrentUser "/api/crm/".toList "POST" (some "Bearer abc")
        (fun _ => .unexpectedError "boom") =
      .error (.http 401 "Erreur de validation du token" []) :=
  ⟨by decide, by decide, by decide, by decide,
    (auth_failure_taxonomy (fun _ => .expiredSignature "e") "/api/crm/".toList "POST"
      (by decide)).1 Option.none (by decide),
    (auth_failure_taxonomy (fun _ => .expiredSignature "e") "/api/crm/".toList "POST"
      (by decide)).2.1 (some "Bearer abc") "abc".toList "e" (by decide) rfl,
    (auth_failure_taxonomy (fun _ => .invalidTokenError "i") "/api/crm/".toList "POST"
      (by decide)).2.2.1 (some "Bearer abc") "abc".toList "i" (by decide) rfl,
    (auth_failure_taxonomy (fun _ => .ok [("user_id", PyVal.str "u")]) "/api/crm/".toList "POST"
      (by decide)).2.2.2.1 (some "Bearer abc") "abc".toList [("user_id", PyVal.str "u")]
      (by decide) rfl (Or.inr (by decide)),
    (auth_failure_taxonomy (fun _ => .unexpectedError "boom") "/api/crm/".toList "POST"
      (by decide)).2.2.2.2.1 (some "Bearer abc") "abc".toList "boom" (by decide) rfl⟩

/-- C10: whenever the signature verifies but the decoded payload's
`user_id` or `tenant_id` is absent, `None`, `0` or the empty string, the
truthiness test of `validate_token` fails the request with a 401 and
never returns an identity; the surfaced detail is the catch-all
`Erreur de validation du token`, since the dedicated missing-claims
`HTTPException` is swallowed by the `except Exception` arm. -/
theorem token_claims_truthiness :
    ∀ (jd : Path → DecodeOutcome) (tok : Path) (payload : List (String × PyVal)),
    jd tok = .ok payload →
    (findA payload "user_id" = Option.none ∨ findA payload "user_id" = some PyVal.none ∨
      findA payload "user_id" = some (PyVal.int 0) ∨
      findA payload "user_id" = some (PyVal.str "") ∨
      findA payload "tenant_id" = Option.none ∨ findA payload "tenant_id" = some PyVal.none ∨
      findA payload "tenant_id" = some (PyVal.int 0) ∨
      findA payload "tenant_id" = some (PyVal.str "")) →
    validateToken jd tok =
      .error (.http 401 "Erreur de validation du token" []) := by
  intro jd tok payload hok hbad
  have hcond : (!truthy (getA payload "user_id" .none) ||
      !truthy (getA payload "tenant_id" .none)) = true := by
    rcases hbad with h | h | h | h | h | h | h | h <;> simp [getA, h, truthy]
  simp [validateToken, hok, hcond]

/-- C10 witness: a verified payload carrying only a `tenant_id` (its
`user_id` absent) is rejected with the 401 whose detail is the
catch-all message. -/
theorem token_claims_truthiness_witness :
    findA [("tenant_id", PyVal.str "t1")] "user_id" = Option.none ∧
    validateToken (fun _ => .ok [("tenant_id", PyVal.str "t1")]) [] =
      .error (.http 401 "Erreur de validation du token" []) :=
  ⟨by decide,
    token_claims_truthiness (fun _ => .ok [("tenant_id", PyVal.str "t1")]) []
      [("tenant_id", PyVal.str "t1")] rfl (Or.inl (by decide))⟩

/-! ### Claim theorems: forwarding -/

theorem keys_removeA_sublist {κ α : Type} [DecidableEq κ] (m : List (κ × α)) (k : κ) :
    List.Sublist (keys (removeA m k)) (keys m) := by
  induction m with
  | nil => simp [removeA, keys]
  | cons e rest ih =>
    obtain ⟨ek, ev⟩ := e
    by_cases h₁ : ek = k
    · simp only [removeA, if_pos h₁, keys, List.map_cons]
      exact List.sublist_cons_self ek (keys rest)
    · simp only [removeA, if_neg h₁, keys, List.map_cons]
      exact ih.cons₂ ek

theorem keysNodup_removeA {κ α : Type} [DecidableEq κ] (m : List (κ × α)) (k : κ)
    (h : (keys m).Nodup) : (keys (removeA m k)).Nodup :=
  h.sublist (keys_removeA_sublist m k)

/-- C6 (amended): before the upstream call, the forwarder removes the
inbound `host` and `content-length` headers and forwards every other
inbound header unchanged apart from the three identity headers it may
set; `content-encoding` and `transfer-encoding` are NOT removed from the
inbound set (the original claim fails — they are only stripped from the
upstream response). -/
theorem forward_header_sanitization :
    ∀ (inbound : List (String × PyVal)) (user : Option UserData),
    findA (buildForwardHeaders inbound user) "host" = none ∧
    findA (buildForwardHeaders inbound user) "content-length" = none ∧
    ∀ k, ¬ k = "host" → ¬ k = "content-length" →
      ¬ k = "X-User-ID" → ¬ k = "X-Tenant-ID" → ¬ k = "X-User-Email" →
      findA (buildForwardHeaders inbound user) k = findA (dictOf inbound) k := by
  intro inbound user
  have hnodup : (keys (dictOf inbound)).Nodup := keysNodup_dictOf inbound
  cases user with
  | none =>
    refine ⟨?_, ?_, ?_⟩
    · show findA (removeA (removeA (dictOf inbound) "host") "content-length") "host" = none
      rw [findA_removeA_ne _ _ _ (by decide)]
      exact findA_removeA_self _ _ hnodup
    · show findA (removeA (removeA (dictOf inbound) "host") "content-length")
        "content-length" = none
      exact findA_removeA_self _ _ (keysNodup_removeA _ _ hnodup)
    · intro k h₁ h₂ _ _ _
      show findA (removeA (removeA (dictOf inbound) "host") "content-length") k =
        findA (dictOf inbound) k
      rw [findA_removeA_ne _ _ _ (fun h => h₂ h.symm),
        findA_removeA_ne _ _ _ (fun h => h₁ h.symm)]
  | some u =>
    have hnodup' : (keys (insertA (insertA (insertA (dictOf inbound)
        "X-User-ID" (.str (pyStr (getA u "user_id" .none))))
        "X-Tenant-ID" (.str (pyStr (getA u "tenant_id" .none))))
        "X-User-Email" (getA u "email" (.str "")))).Nodup :=
      keysNodup_insertA _ _ _ (keysNodup_insertA _ _ _ (keysNodup_insertA _ _ _ hnodup))
    refine ⟨?_, ?_, ?_⟩
    · show findA (removeA (removeA _ "host") "content-length") "host" = none
      rw [findA_removeA_ne _ _ _ (by decide)]
      exact findA_removeA_self _ _ hnodup'
    · show findA (removeA (removeA _ "host") "content-length") "content-length" = none
      exact findA_removeA_self _ _ (keysNodup_removeA _ _ hnodup')
    · intro k h₁ h₂ h₃ h₄ h₅
      show findA (removeA (removeA (insertA (insertA (insertA (dictOf inbound)
          "X-User-ID" (.str (pyStr (getA u "user_id" .none))))
          "X-Tenant-ID" (.str (pyStr (getA u "tenant_id" .none))))
          "X-User-Email" (getA u "email" (.str ""))) "host") "content-length") k =
        findA (dictOf inbound) k
      rw [findA_removeA_ne _ _ _ (fun h => h₂ h.symm),
        findA_removeA_ne _ _ _ (fun h => h₁ h.symm),
        findA_insertA, if_neg (fun h => h₅ h.symm),
        findA_insertA, if_neg (fun h => h₄ h.symm),
        findA_insertA, if_neg (fun h => h₃ h.symm)]

/-- C6 counterexample: inbound `content-encoding` and `transfer-encoding`
headers survive into the forwarded header set — the forwarder does not
remove them, contradicting the claim that all four headers are stripped. -/
theorem forward_header_sanitization_cex :
    findA (buildForwardHeaders
      [("content-encoding", PyVal.str "gzip"), ("transfer-encoding", PyVal.str "chunked")]
      Option.none) "content-encoding" = some (PyVal.str "gzip") ∧
    findA (buildForwardHeaders
      [("content-encoding", PyVal.str "gzip"), ("transfer-encoding", PyVal.str "chunked")]
      Option.none) "transfer-encoding" = some (PyVal.str "chunked") := by
  decide

/-- C6 witness: on a concrete header set, `host` and `content-length` are
removed and an untouched header (`accept`) passes through unchanged. -/
theorem forward_header_sanitization_witness :
    findA (buildForwardHeaders
      [("host", PyVal.str "gw"), ("content-length", PyVal.str "12"),
        ("accept", PyVal.str "application/json")] Option.none) "host" = none ∧
    findA (buildForwardHeaders
      [("host", PyVal.str "gw"), ("content-length", PyVal.str "12"),
        ("accept", PyVal.str "application/json")] Option.none) "content-length" = none ∧
    findA (buildForwardHeaders
      [("host", PyVal.str "gw"), ("content-length", PyVal.str "12"),
        ("accept", PyVal.str "application/json")] Option.none) "accept" =
      findA (dictOf [("host", PyVal.str "gw"), ("content-length", PyVal.str "12"),
        ("accept", PyVal.str "application/json")]) "accept" :=
  ⟨(forward_header_sanitization [("host", PyVal.str "gw"), ("content-length", PyVal.str "12"),
      ("accept", PyVal.str "application/json")] Option.none).1,
    (forward_header_sanitization [("host", PyVal.str "gw"), ("content-length", PyVal.str "12"),
      ("accept", PyVal.str "application/json")] Option.none).2.1,
    (forward_header_sanitization [("host", PyVal.str "gw"), ("content-length", PyVal.str "12"),
      ("accept", PyVal.str "application/json")] Option.none).2.2 "accept"
      (by decide) (by decide) (by decide) (by decide) (by decide)⟩

/-- C7 (amended): with an authenticated identity the three identity
headers are set: `X-User-ID` and `X-Tenant-ID` from `str()` of the
identity's fields, and `X-User-Email` to the identity dict's stored
`email` value when the key is present — the empty-string default applies
only when the identity has no `email` key at all, which never happens
for identities built by `validate_token` (they store `None` instead). -/
theorem identity_headers_set :
    ∀ (inbound : List (String × PyVal)) (u : UserData),
    findA (buildForwardHeaders inbound (some u)) "X-User-ID" =
      some (.str (pyStr (getA u "user_id" .none))) ∧
    findA (buildForwardHeaders inbound (some u)) "X-Tenant-ID" =
      some (.str (pyStr (getA u "tenant_id" .none))) ∧
    findA (buildForwardHeaders inbound (some u)) "X-User-Email" =
      some (getA u "email" (.str "")) ∧
    (findA u "email" = Option.none →
      findA (buildForwardHeaders inbound (some u)) "X-User-Email" = some (PyVal.str "")) ∧
    (∀ e, findA u "email" = some e →
      findA (buildForwardHeaders inbound (some u)) "X-User-Email" = some e) := by
  intro inbound u
  have h₁ : findA (buildForwardHeaders inbound (some u)) "X-User-ID" =
      some (.str (pyStr (getA u "user_id" .none))) := by
    show findA (removeA (removeA (insertA (insertA (insertA (dictOf inbound)
        "X-User-ID" (.str (pyStr (getA u "user_id" .none))))
        "X-Tenant-ID" (.str (pyStr (getA u "tenant_id" .none))))
        "X-User-Email" (getA u "email" (.str ""))) "host") "content-length") "X-User-ID" =
      some (.str (pyStr (getA u "user_id" .none)))
    rw [findA_removeA_ne _ _ _ (by decide), findA_removeA_ne _ _ _ (by decide),
      findA_insertA, if_neg (by decide), findA_insertA, if_neg (by decide),
      findA_insertA, if_pos rfl]
  have h₂ : findA (buildForwardHeaders inbound (some u)) "X-Tenant-ID" =
      some (.str (pyStr (getA u "tenant_id" .none))) := by
    show findA (removeA (removeA (insertA (insertA (insertA (dictOf inbound)
        "X-User-ID" (.str (pyStr (getA u "user_id" .none))))
        "X-Tenant-ID" (.str (pyStr (getA u "tenant_id" .none))))
        "X-User-Email" (getA u "email" (.str ""))) "host") "content-length") "X-Tenant-ID" =
      some (.str (pyStr (getA u "tenant_id" .none)))
    rw [findA_removeA_ne _ _ _ (by decide), findA_removeA_ne _ _ _ (by decide),
      findA_insertA, if_neg (by decide), findA_insertA, if_pos rfl]
  have h₃ : findA (buildForwardHeaders inbound (some u)) "X-User-Email" =
      some (getA u "email" (.str "")) := by
    show findA (removeA (removeA (insertA (insertA (insertA (dictOf inbound)
        "X-User-ID" (.str (pyStr (getA u "user_id" .none))))
        "X-Tenant-ID" (.str (pyStr (getA u "tenant_id" .none))))
        "X-User-Email" (getA u "email" (.str ""))) "host") "content-length") "X-User-Email" =
      some (getA u "email" (.str ""))
    rw [findA_removeA_ne _ _ _ (by decide), findA_removeA_ne _ _ _ (by decide),
      findA_insertA, if_pos rfl]
  refine ⟨h₁, h₂, h₃, ?_, ?_⟩
  · intro he
    rw [h₃]
    simp [getA, he]
  · intro e he
    rw [h₃]
    simp [getA, he]

/-- C7 counterexample: a `validate_token` identity built from a payload
with no email stores `email = None`, and the forwarder then sets
`X-User-Email` to `None`, not to the empty string. -/
theorem identity_headers_set_cex :
    validateToken (fun _ => .ok [("user_id", PyVal.str "u1"), ("tenant_id", PyVal.str "t1")])
        [] =
      .ok [("user_id", PyVal.str "u1"), ("tenant_id", PyVal.str "t1"),
        ("email", PyVal.none), ("exp", PyVal.none), ("iat", PyVal.none)] ∧
    findA (buildForwardHeaders []
        (some [("user_id", PyVal.str "u1"), ("tenant_id", PyVal.str "t1"),
          ("email", PyVal.none), ("exp", PyVal.none), ("iat", PyVal.none)]))
      "X-User-Email" = some PyVal.none ∧
    ¬ (some PyVal.none = some (PyVal.str "")) := by
  decide

/-- C7 witness: for an identity dict with user and tenant ids and no
`email` key, the three identity headers are set and `X-User-Email`
defaults to the empty string. -/
theorem identity_headers_set_witness :
    findA [("user_id", PyVal.str "u"), ("tenant_id", PyVal.str "t")] "email" = Option.none ∧
    findA (buildForwardHeaders []
        (some [("user_id", PyVal.str "u"), ("tenant_id", PyVal.str "t")])) "X-User-ID" =
      some (PyVal.str "u") ∧
    findA (buildForwardHeaders []
        (some [("user_id", PyVal.str "u"), ("tenant_id", PyVal.str "t")])) "X-User-Email" =
      some (PyVal.str "") :=
  ⟨by decide,
    (identity_headers_set [] [("user_id", PyVal.str "u"), ("tenant_id", PyVal.str "t")]).1,
    (identity_headers_set []
      [("user_id", PyVal.str "u"), ("tenant_id", PyVal.str "t")]).2.2.2.1 (by decide)⟩

/-- C8: the upstream phase issues exactly one call whatever the outcome
(no retry), and maps a timeout to 504, a transport-level `RequestError`
to 503, and any other exception to 500. -/
theorem upstream_failure_mapping :
    ∀ (transport : Nat → UpstreamOutcome),
    (proxyUpstreamPhase transport).2 = 1 ∧
    (∀ m, transport 0 = .timeoutExc m →
      (proxyUpstreamPhase transport).1 =
        .error (.http 504 "Le service backend a mis trop de temps à répondre" [])) ∧
    (∀ m, transport 0 = .requestExc m →
      (proxyUpstreamPhase transport).1 =
        .error (.http 503 ("Service temporairement indisponible: " ++ m) [])) ∧
    (∀ m, transport 0 = .otherExc m →
      (proxyUpstreamPhase transport).1 =
        .error (.http 500 "Erreur interne du gateway" [])) := by
  intro transport
  refine ⟨rfl, ?_, ?_, ?_⟩ <;> intro m h <;> simp [proxyUpstreamPhase, forwardOutcome, h]

/-- C8 witness: a timing-out, an unreachable, and a crashing transport
each incur exactly one call and the mapped status. -/
theorem upstream_failure_mapping_witness :
    (proxyUpstreamPhase (fun _ => .timeoutExc "t")).2 = 1 ∧
    (proxyUpstreamPhase (fun _ => .timeoutExc "t")).1 =
      .error (.http 504 "Le service backend a mis trop de temps à répondre" []) ∧
    (proxyUpstreamPhase (fun _ => .requestExc "conn refused")).1 =
      .error (.http 503 ("Service temporairement indisponible: " ++ "conn refused") []) ∧
    (proxyUpstreamPhase (fun _ => .otherExc "boom")).1 =
      .error (.http 500 "Erreur interne du gateway" []) :=
  ⟨(upstream_failure_mapping (fun _ => .timeoutExc "t")).1,
    (upstream_failure_mapping (fun _ => .timeoutExc "t")).2.1 "t" rfl,
    (upstream_failure_mapping (fun _ => .requestExc "conn refused")).2.2.1 "conn refused" rfl,
    (upstream_failure_mapping (fun _ => .otherExc "boom")).2.2.2 "boom" rfl⟩

/-! ### Claim theorems: health aggregation -/

theorem probeOk_iff (o : ProbeOutcome) :
    probeOk o = true ↔ ∃ t, o = .response 200 t := by
  cases o with
  | response code t =>
    simp only [probeOk, beq_iff_eq, ProbeOutcome.response.injEq]
    constructor
    · intro h; exact ⟨t, h, rfl⟩
    · rintro ⟨t', h, _⟩; exact h
  | exc m => simp [probeOk]
  | taskExc m => simp [probeOk]

theorem healthFold_flag (probe : String → ProbeOutcome) :
    ∀ (l : List (String × ServiceConfig)) (acc : List (String × ServiceHealth)) (b : Bool),
    (l.foldl (healthStep probe) (acc, b)).2 = (b && l.all (fun e => probeOk (probe e.1))) := by
  intro l
  induction l with
  | nil => intro acc b; simp
  | cons e t ih =>
    intro acc b
    rw [List.foldl_cons, List.all_cons]
    have hstep : (healthStep probe (acc, b) e).2 = (b && probeOk (probe e.1)) := by
      cases hpe : probe e.1 with
      | response code tt =>
        by_cases hc : code = 200 <;>
          simp [healthStep, checkServiceHealth, probeOk, hpe, hc]
      | exc m => simp [healthStep, checkServiceHealth, probeOk, hpe]
      | taskExc m => simp [healthStep, probeOk, hpe]
    calc (t.foldl (healthStep probe) (healthStep probe (acc, b) e)).2
        = ((healthStep probe (acc, b) e).2 && t.all (fun e => probeOk (probe e.1))) :=
          ih (healthStep probe (acc, b) e).1 (healthStep probe (acc, b) e).2
      _ = ((b && probeOk (probe e.1)) && t.all (fun e => probeOk (probe e.1))) := by
          rw [hstep]
      _ = (b && (probeOk (probe e.1) && t.all (fun e => probeOk (probe e.1)))) :=
          Bool.and_assoc ..

/-- C9: the aggregate report is `healthy` iff every configured service's
probe came back as an HTTP 200 response (a non-200 code, a probe
exception or a gathered exception all degrade it), and the `/health/`
endpoint returns 200 exactly when the report is healthy and 503
otherwise. -/
theorem health_aggregation :
    ∀ (probe : String → ProbeOutcome),
    ((healthCheckAll probe).overall = "healthy" ↔
      ∀ e ∈ SERVICES, ∃ t, probe e.1 = .response 200 t) ∧
    (healthEndpointStatus probe = 200 ↔ (healthCheckAll probe).overall = "healthy") ∧
    (¬ healthEndpointStatus probe = 200 → healthEndpointStatus probe = 503) := by
  intro probe
  have hflag : (SERVICES.foldl (healthStep probe) ([], true)).2 =
      SERVICES.all (fun e => probeOk (probe e.1)) := by
    simpa using healthFold_flag probe SERVICES [] true
  have hoverall : (healthCheckAll probe).overall =
      (if SERVICES.all (fun e => probeOk (probe e.1)) then "healthy" else "degraded") := by
    simp only [healthCheckAll]
    rw [hflag]
  refine ⟨?_, ?_, ?_⟩
  · by_cases hall : SERVICES.all (fun e => probeOk (probe e.1)) = true
    · constructor
      · intro _ e he
        exact (probeOk_iff _).mp (List.all_eq_true.mp hall e he)
      · intro _
        rw [hoverall, if_pos hall]
    · constructor
      · intro hov
        exfalso
        rw [hoverall, if_neg hall] at hov
        exact absurd hov (by decide)
      · intro h
        exact absurd (List.all_eq_true.mpr fun e he => (probeOk_iff _).mpr (h e he)) hall
  · by_cases h : (healthCheckAll probe).overall = "healthy" <;>
      simp [healthEndpointStatus, h]
  · by_cases h : (healthCheckAll probe).overall = "healthy" <;>
      simp [healthEndpointStatus, h]

/-- C9 witness: all probes 200 gives a healthy report and a 200 endpoint
status; one unreachable probe (the crm service) gives 503. -/
theorem health_aggregation_witness :
    (healthCheckAll (fun _ => .response 200 5)).overall = "healthy" ∧
    healthEndpointStatus (fun _ => .response 200 5) = 200 ∧
    healthEndpointStatus (fun n => if n = "crm" then .exc "down" else .response 200 5) =
      503 := by
  have h₁ := health_aggregation (fun _ => .response 200 5)
  have hoverall := h₁.1.mpr (fun e _ => ⟨5, rfl⟩)
  have h₂ := health_aggregation (fun n => if n = "crm" then .exc "down" else .response 200 5)
  refine ⟨hoverall, h₁.2.1.mpr hoverall, ?_⟩
  apply h₂.2.2
  intro h200
  have hall := h₂.1.mp (h₂.2.1.mp h200)
  have hcrm := hall ("crm", ⟨"http://localhost:8003", "/health/".toList, ["/api/crm/".toList]⟩)
    (by decide)
  obtain ⟨t, ht⟩ := hcrm
  simp at ht

end Gateway
